import Mathlib

/-!
Verification development for the SarthiAI plan-generation core
(`backend/app/services/`): effort-band inference, availability-profile
sanitization, the cadence/scheduling engine, the resolution-decomposition
orchestrator, and the weekly rolling-wave planner.

Python values are shallowly embedded: machine integers as `Int`/`Nat`,
dates as integer day offsets from a fixed Monday epoch (so `weekday d =
d % 7` with Python's floored `%`, matching `Int.emod`), strings as Lean
`String`, raised exceptions as `Except`/`Option` failures.  String helpers
(`strip`, `lower`, `split`, `int(...)`) are re-implemented over character
lists so that proofs can compute; they agree with CPython on the ASCII
inputs that arise in this codebase.
-/

namespace SarthiAI

/-- Python `str.strip()` restricted to the ASCII whitespace that occurs in
this codebase. -/
def pyIsSpace (c : Char) : Bool :=
  c = ' ' ∨ c = '\t' ∨ c = '\n' ∨ c = '\r'

/-- Strip leading/trailing whitespace, as Python `str.strip()`. -/
def pyStrip (s : String) : String :=
  ⟨(((s.data.dropWhile pyIsSpace).reverse.dropWhile pyIsSpace).reverse)⟩

/-- Python `str.lower()` (ASCII range, which covers every string the
services compare case-insensitively). -/
def pyLower (s : String) : String :=
  ⟨s.data.map Char.toLower⟩

/-- Python `needle in hay` substring containment. -/
def strContains (hay needle : String) : Bool :=
  (List.range (hay.data.length + 1)).any
    (fun i => needle.data.isPrefixOf (hay.data.drop i))

/-- Split a character list at every occurrence of `sep`, as Python
`str.split(sep)` (so `"".split(":") = [""]` and `":".split(":") = ["", ""]`). -/
def splitCharList (sep : Char) : List Char → List (List Char)
  | [] => [[]]
  | c :: cs =>
    if c = sep then
      [] :: splitCharList sep cs
    else
      match splitCharList sep cs with
      | r :: rs => (c :: r) :: rs
      | [] => [[c]]

/-- Python `value.split(sep)` for a one-character separator. -/
def pySplit (sep : Char) (s : String) : List String :=
  (splitCharList sep s.data).map (fun l => ⟨l⟩)

/-- Numeric value of a decimal digit character. -/
def digitVal (c : Char) : Nat := c.toNat - 48

/-- Decimal digits to a natural number (most significant first). -/
def digitsToNat (l : List Char) : Nat :=
  l.foldl (fun acc c => 10 * acc + digitVal c) 0

/-- Python `int(s)` for a decimal string: strips whitespace, accepts an
optional leading minus sign, then requires a nonempty run of digits;
`none` models the raised `ValueError`. -/
def pyInt? (s : String) : Option Int :=
  let t := (pyStrip s).data
  match t with
  | '-' :: rest =>
    if rest ≠ [] ∧ rest.all Char.isDigit then some (-(digitsToNat rest : Int)) else none
  | _ =>
    if t ≠ [] ∧ t.all Char.isDigit then some (digitsToNat t : Int) else none

/-- The digit character for `d < 10`. -/
def digitChar (d : Nat) : Char := Char.ofNat (48 + d)

/-- Python `f"{n:02d}"` for `0 ≤ n ≤ 99`, the only range the services
format (hours, minutes). -/
def pad2 (n : Nat) : String := ⟨[digitChar (n / 10), digitChar (n % 10)]⟩

/-- Render hours/minutes as `"HH:MM"`. -/
def fmtTime (h m : Nat) : String := ⟨(pad2 h).data ++ ':' :: (pad2 m).data⟩

end SarthiAI

namespace SarthiAI.EffortBand

/-! ### `app/services/effort_band.py` -/

/-- Source: `LOW_KEYWORDS` -/
def LOW_KEYWORDS : List String := ["casual", "light", "no pressure"]

/-- Source: `INTENSE_KEYWORDS` -/
def INTENSE_KEYWORDS : List String := ["intense", "crash course", "bootcamp"]

/-- Source: `SKILL_PUSH_KEYWORDS` -/
def SKILL_PUSH_KEYWORDS : List String :=
  ["master", "advanced", "exam", "certification", "daily practice", "serious"]

/-- Source: `infer_effort_band(user_input, resolution_type, duration_weeks)`:
returns `(band, rationale)`.  `user_input = None` is modelled by the empty
string (`user_input or ""`), `resolution_type = None` by `none`, and the
Python falsy default `duration_weeks or 8` by mapping `none` and `0` to 8. -/
def infer_effort_band (user_input : String) (resolution_type : Option String)
    (duration_weeks : Option Int) : String × String :=
  let text := pyLower user_input
  let duration : Int :=
    match duration_weeks with
    | some d => if d ≠ 0 then d else 8
    | none => 8
  if LOW_KEYWORDS.any (fun k => strContains text k) then
    ("low", "Goal explicitly requests a casual/light approach.")
  else
    let base :=
      if resolution_type = some "habit" ∨ resolution_type = some "health" then
        ("medium", "Habits/health default to medium effort.")
      else if resolution_type = some "skill" ∨ resolution_type = some "learning" then
        if SKILL_PUSH_KEYWORDS.any (fun k => strContains text k) then
          ("high", "Skill goal indicates advanced intensity.")
        else
          ("medium", "Skill/learning defaults to medium effort.")
      else if resolution_type = some "project" ∨ resolution_type = some "work" then
        if duration ≤ 6 then
          ("high", "Short project/work goal defaulted to high effort.")
        else
          ("medium", "Longer project/work plan kept at medium effort.")
      else
        ("medium", "No specific type, defaulting to medium effort.")
    if INTENSE_KEYWORDS.any (fun k => strContains text k) then
      if duration ≤ 4 then
        ("intense", "Explicit intense wording with short duration.")
      else
        ("high", "Explicit intense wording but duration suggests high effort.")
    else
      base

end SarthiAI.EffortBand

namespace SarthiAI

/-! ### A universe of loosely-typed Python values

`sanitize_availability_profile` receives `Dict[str, Any] | None`; the
claims quantify over every raw input, so we embed the Python values that
can reach it.  Dictionary keys are strings (as in all call sites); floats
do not occur in the relevant inputs and are omitted. -/

inductive PyVal where
  | vnone : PyVal
  | vbool : Bool → PyVal
  | vint : Int → PyVal
  | vstr : String → PyVal
  | vlist : List PyVal → PyVal
  | vdict : List (String × PyVal) → PyVal

namespace PyVal

/-- Python truthiness. -/
def truthy : PyVal → Bool
  | vnone => false
  | vbool b => b
  | vint n => n ≠ 0
  | vstr s => s ≠ ""
  | vlist l => !l.isEmpty
  | vdict d => !d.isEmpty

/-- Source: `d.get(key)` with default `None` (first binding wins, as CPython keeps
one binding per key). -/
def get (kvs : List (String × PyVal)) (key : String) : PyVal :=
  match kvs.find? (fun kv => kv.1 = key) with
  | some kv => kv.2
  | none => vnone

/-- Python `str(value)` as far as the services rely on it: exact on
strings; other values render to text that never collides with the keyword
sets being matched. -/
def pyStr : PyVal → String
  | vnone => "None"
  | vbool true => "True"
  | vbool false => "False"
  | vint n => toString n
  | vstr s => s
  | vlist _ => "[list]"
  | vdict _ => "[dict]"

end PyVal

end SarthiAI

namespace SarthiAI.AvailabilityProfile

/-! ### `app/services/availability_profile.py` -/

open SarthiAI.PyVal

/-- The canonical availability profile record (always fully populated). -/
structure Profile where
  work_days : List String
  work_start : String
  work_end : String
  peak_energy : String
  work_mode_enabled : Bool
  slot_fitness : String
  slot_learning : String
  slot_admin : String
  deriving DecidableEq, Repr

/-- Source: `DEFAULT_AVAILABILITY_PROFILE` together with `DEFAULT_PERSONAL_SLOTS`. -/
def DEFAULT_AVAILABILITY_PROFILE : Profile :=
  { work_days := ["Mon", "Tue", "Wed", "Thu", "Fri"]
    work_start := "09:00"
    work_end := "18:00"
    peak_energy := "morning"
    work_mode_enabled := false
    slot_fitness := "morning"
    slot_learning := "evening"
    slot_admin := "weekend" }

/-- Source: `_DAY_NORMALIZATION` lookup. -/
def dayNormalization (key : String) : Option String :=
  if key = "mon" ∨ key = "monday" then some "Mon"
  else if key = "tue" ∨ key = "tues" ∨ key = "tuesday" then some "Tue"
  else if key = "wed" ∨ key = "weds" ∨ key = "wednesday" then some "Wed"
  else if key = "thu" ∨ key = "thur" ∨ key = "thurs" ∨ key = "thursday" then some "Thu"
  else if key = "fri" ∨ key = "friday" then some "Fri"
  else if key = "sat" ∨ key = "saturday" then some "Sat"
  else if key = "sun" ∨ key = "sunday" then some "Sun"
  else none

/-- The loop body of `_normalize_work_days`: fold the entries, keeping
recognized day codes once each, in first-seen order. -/
def normalizeWorkDaysAux (acc : List String) : List PyVal → List String
  | [] => acc
  | entry :: rest =>
    match entry with
    | PyVal.vstr s =>
      match dayNormalization (pyLower (pyStrip s)) with
      | some v =>
        if v ∈ acc then normalizeWorkDaysAux acc rest
        else normalizeWorkDaysAux (acc ++ [v]) rest
      | none => normalizeWorkDaysAux acc rest
    | _ => normalizeWorkDaysAux acc rest

/-- Source: `_normalize_work_days(days)`.  Iterating a string yields its
characters (as one-character strings), iterating a dict yields its keys;
iterating a truthy bool/int raises `TypeError`, modelled as `none`. -/
def normalizeWorkDays (days : PyVal) : Option (List String) :=
  if ¬ days.truthy then some DEFAULT_AVAILABILITY_PROFILE.work_days
  else
    let entries? : Option (List PyVal) :=
      match days with
      | PyVal.vlist l => some l
      | PyVal.vstr s => some (s.data.map (fun c => PyVal.vstr ⟨[c]⟩))
      | PyVal.vdict kvs => some (kvs.map (fun kv => PyVal.vstr kv.1))
      | _ => none
    match entries? with
    | none => none
    | some entries =>
      let normalized := normalizeWorkDaysAux [] entries
      if normalized = [] then some DEFAULT_AVAILABILITY_PROFILE.work_days
      else some normalized

/-- Source: `_normalize_time_string(value)`: accepts only an `"H:M"` string, clamps
the hour to `[0, 23]` and the minute to `[0, 59]`, and re-renders as
`"HH:MM"`; anything else yields `None`. -/
def normalizeTimeString (value : PyVal) : Option String :=
  match value with
  | PyVal.vstr s =>
    match pySplit ':' (pyStrip s) with
    | [p1, p2] =>
      match pyInt? p1, pyInt? p2 with
      | some h, some m =>
        some (fmtTime (max 0 (min 23 h)).toNat (max 0 (min 59 m)).toNat)
      | _, _ => none
    | _ => none
  | _ => none

/-- Source: `_time_str_to_minutes(value)` (availability-profile version: any
failure yields 0). -/
def timeStrToMinutes (value : String) : Int :=
  match pySplit ':' value with
  | [p1, p2] =>
    match pyInt? p1, pyInt? p2 with
    | some h, some m => h * 60 + m
    | _, _ => 0
  | _ => 0

/-- Source: `_normalize_personal_slots(raw)`. -/
def normalizePersonalSlots (raw : PyVal) : String × String × String :=
  match raw with
  | PyVal.vdict kvs =>
    let fitness := pyLower (PyVal.pyStr (PyVal.get kvs "fitness"))
    let learning := pyLower (PyVal.pyStr (PyVal.get kvs "learning"))
    let admin := pyLower (PyVal.pyStr (PyVal.get kvs "admin"))
    ((if fitness = "morning" ∨ fitness = "afternoon" ∨ fitness = "evening" then fitness
      else DEFAULT_AVAILABILITY_PROFILE.slot_fitness),
     (if learning = "morning" ∨ learning = "afternoon" ∨ learning = "evening" then learning
      else DEFAULT_AVAILABILITY_PROFILE.slot_learning),
     (if admin = "weekend" ∨ admin = "evenings" then admin
      else DEFAULT_AVAILABILITY_PROFILE.slot_admin))
  | _ =>
    (DEFAULT_AVAILABILITY_PROFILE.slot_fitness,
     DEFAULT_AVAILABILITY_PROFILE.slot_learning,
     DEFAULT_AVAILABILITY_PROFILE.slot_admin)

/-- The `work_start` candidate before the ordering check (`raw.get` plus
default retention on rejection). -/
def sanWorkStart0 (kvs : List (String × PyVal)) : String :=
  match normalizeTimeString (PyVal.get kvs "work_start") with
  | some t => t
  | none => DEFAULT_AVAILABILITY_PROFILE.work_start

/-- The `work_end` candidate before the ordering check. -/
def sanWorkEnd0 (kvs : List (String × PyVal)) : String :=
  match normalizeTimeString (PyVal.get kvs "work_end") with
  | some t => t
  | none => DEFAULT_AVAILABILITY_PROFILE.work_end

/-- The `# Ensure start precedes end` step: when the normalized start does
not precede the normalized end, both fall back to defaults. -/
def sanTimes (kvs : List (String × PyVal)) : String × String :=
  if timeStrToMinutes (sanWorkStart0 kvs) ≥ timeStrToMinutes (sanWorkEnd0 kvs) then
    (DEFAULT_AVAILABILITY_PROFILE.work_start, DEFAULT_AVAILABILITY_PROFILE.work_end)
  else (sanWorkStart0 kvs, sanWorkEnd0 kvs)

/-- The `peak_energy` normalization step. -/
def sanPeak (kvs : List (String × PyVal)) : String :=
  let peak := pyLower (pyStrip (PyVal.pyStr (PyVal.get kvs "peak_energy")))
  if peak = "morning" ∨ peak = "evening" then peak
  else DEFAULT_AVAILABILITY_PROFILE.peak_energy

/-- The `work_mode_enabled` normalization step (`isinstance(..., bool)`). -/
def sanWorkMode (kvs : List (String × PyVal)) : Bool :=
  match PyVal.get kvs "work_mode_enabled" with
  | PyVal.vbool b => b
  | _ => DEFAULT_AVAILABILITY_PROFILE.work_mode_enabled

/-- Source: `sanitize_availability_profile(raw)`.  In the dict branch the fields
read via `raw.get` default exactly as in the source; `none` models the
`TypeError` raised when `work_days` is a truthy non-iterable value. -/
def sanitize_availability_profile (raw : PyVal) : Option Profile :=
  match raw with
  | PyVal.vdict kvs =>
    match normalizeWorkDays (PyVal.get kvs "work_days") with
    | none => none
    | some wd =>
      some
        { work_days := wd
          work_start := (sanTimes kvs).1
          work_end := (sanTimes kvs).2
          peak_energy := sanPeak kvs
          work_mode_enabled := sanWorkMode kvs
          slot_fitness := (normalizePersonalSlots (PyVal.get kvs "personal_slots")).1
          slot_learning := (normalizePersonalSlots (PyVal.get kvs "personal_slots")).2.1
          slot_admin := (normalizePersonalSlots (PyVal.get kvs "personal_slots")).2.2 }
  | _ => some DEFAULT_AVAILABILITY_PROFILE

/-- The personal-slots sub-dictionary of a serialized profile. -/
def slotKvs (sf sl sa : String) : List (String × PyVal) :=
  [("fitness", PyVal.vstr sf), ("learning", PyVal.vstr sl), ("admin", PyVal.vstr sa)]

/-- The key/value list of a serialized profile. -/
def profKvs (wd : List String) (ws we pe : String) (wm : Bool)
    (sf sl sa : String) : List (String × PyVal) :=
  [("work_days", PyVal.vlist (wd.map PyVal.vstr)),
   ("work_start", PyVal.vstr ws),
   ("work_end", PyVal.vstr we),
   ("peak_energy", PyVal.vstr pe),
   ("work_mode_enabled", PyVal.vbool wm),
   ("personal_slots", PyVal.vdict (slotKvs sf sl sa))]

/-- Re-inject a sanitized profile as the raw dictionary a caller would
round-trip through persistence, for the idempotence property. -/
def Profile.toPyVal (p : Profile) : PyVal :=
  PyVal.vdict (profKvs p.work_days p.work_start p.work_end p.peak_energy
    p.work_mode_enabled p.slot_fitness p.slot_learning p.slot_admin)

/-- The seven canonical day codes (the codomain of `_DAY_NORMALIZATION`). -/
def dayCodes : List String := ["Mon", "Tue", "Wed", "Thu", "Fri", "Sat", "Sun"]

/-- Shape invariant satisfied by every value `sanitize_availability_profile`
returns. -/
structure Canonical (p : Profile) : Prop where
  wd_ne : p.work_days ≠ []
  wd_nodup : p.work_days.Nodup
  wd_codes : ∀ d ∈ p.work_days, d ∈ dayCodes
  ws_shape : ∃ h m, h ≤ 23 ∧ m ≤ 59 ∧ p.work_start = fmtTime h m
  we_shape : ∃ h m, h ≤ 23 ∧ m ≤ 59 ∧ p.work_end = fmtTime h m
  time_lt : timeStrToMinutes p.work_start < timeStrToMinutes p.work_end
  peak_mem : p.peak_energy = "morning" ∨ p.peak_energy = "evening"
  fit_mem : p.slot_fitness = "morning" ∨ p.slot_fitness = "afternoon" ∨
    p.slot_fitness = "evening"
  learn_mem : p.slot_learning = "morning" ∨ p.slot_learning = "afternoon" ∨
    p.slot_learning = "evening"
  admin_mem : p.slot_admin = "weekend" ∨ p.slot_admin = "evenings"

/-- One sanitizer pass, then a second pass over the re-serialized result:
this is `sanitize(sanitize(x))` with the intermediate profile carried back
to the raw representation.  Partiality (`TypeError`) composes Kleene-style. -/
def sanitizeTwice (x : PyVal) : Option Profile :=
  (sanitize_availability_profile x).bind
    (fun p => sanitize_availability_profile p.toPyVal)

end SarthiAI.AvailabilityProfile


namespace SarthiAI.Decomposer

/-! ### `app/services/resolution_decomposer.py` — cadence engine

Dates are integers counting days from a fixed Monday epoch, so Python's
`date.weekday()` is `d % 7` (floored modulo, i.e. `Int.emod`) and
`date + timedelta(days=k)` is `d + k`.  A `date` object is always truthy. -/

/-- A cadence-descriptor dictionary.  Absent string keys are `""`, absent
numeric keys are `none`; this covers every field the services read. -/
structure CadenceStruct where
  type : String := ""
  cadence : String := ""
  count : Option Int := none
  times_per_week : Option Int := none
  days : List String := []
  times : List String := []
  deriving Repr, DecidableEq

/-- Python `a or b` on optional integers (`some 0` is falsy). -/
def pyOrOptInt (a b : Option Int) : Option Int :=
  match a with
  | some n => if n ≠ 0 then some n else b
  | none => b

/-- Python `a or b` on strings (`""` is falsy). -/
def pyOrStr (a b : String) : String := if a ≠ "" then a else b

/-- Source: `_coerce_positive_int(value)` on an integer-or-missing value. -/
def coerce_positive_int (value : Option Int) : Option Int :=
  match value with
  | none => none
  | some n => if n > 0 then some n else none

/-- Source: `_normalize_cadence_struct(struct)`.  When the rewritten `count` is
falsy the original `count` entry of the dict survives untouched, exactly
as in the source (`if count: normalized["count"] = count`). -/
def normalize_cadence_struct (struct : CadenceStruct) : CadenceStruct :=
  let cadence_type := pyLower (pyOrStr struct.type struct.cadence)
  let count0 := coerce_positive_int (pyOrOptInt struct.count struct.times_per_week)
  let days := struct.days
  let (cadence_type, count0) :=
    if cadence_type = "once_per_week" then
      ("x_per_week", some ((pyOrOptInt count0 (some 1)).getD 1))
    else if cadence_type = "twice_per_week" ∨ cadence_type = "two_per_week" ∨
        cadence_type = "2x_per_week" ∨ cadence_type = "2x_in_week" then
      ("x_per_week", some ((pyOrOptInt count0 (some 2)).getD 2))
    else if cadence_type = "thrice_per_week" ∨ cadence_type = "three_per_week" ∨
        cadence_type = "3x_per_week" ∨ cadence_type = "3x_in_week" then
      ("x_per_week", some ((pyOrOptInt count0 (some 3)).getD 3))
    else if cadence_type = "weekly" then
      ("x_per_week", some ((pyOrOptInt count0 (some 1)).getD 1))
    else (cadence_type, count0)
  let cadence_type :=
    if cadence_type = "" then
      if (pyOrOptInt count0 none).isSome then "x_per_week"
      else if days ≠ [] then "specific_days"
      else "flex"
    else cadence_type
  { struct with
    type := cadence_type
    count := match pyOrOptInt count0 none with
      | some n => some n
      | none => struct.count
    days := if days ≠ [] then days.map (fun d => pyLower (pyStrip d)) else struct.days }

/-- The raw `cadence` field of a task: a string, a dict, or anything else. -/
inductive CadenceVal where
  | str : String → CadenceVal
  | struct : CadenceStruct → CadenceVal
  | other : CadenceVal
  deriving Repr, DecidableEq

/-- Source: `_build_cadence_struct(raw)`. -/
def build_cadence_struct (raw : CadenceVal) : CadenceStruct :=
  match raw with
  | CadenceVal.struct s =>
    let s := { s with times := if s.times ≠ [] then s.times else ["morning"] }
    let s := { s with type := if s.type ≠ "" then pyLower s.type else s.type }
    normalize_cadence_struct s
  | CadenceVal.str s =>
    normalize_cadence_struct { type := pyLower s, times := ["morning"] }
  | CadenceVal.other =>
    normalize_cadence_struct { type := "flex", times := ["morning"] }

/-- Source: `_normalize_days(raw_days)` (full weekday names only, Monday = 0). -/
def normalize_days (raw_days : List String) : List Int :=
  raw_days.filterMap (fun day =>
    let key := pyLower (pyStrip day)
    if key = "monday" then some 0
    else if key = "tuesday" then some 1
    else if key = "wednesday" then some 2
    else if key = "thursday" then some 3
    else if key = "friday" then some 4
    else if key = "saturday" then some 5
    else if key = "sunday" then some 6
    else none)

/-- Round-half-up of `p / q` on naturals.  The source computes
`int(round(i * (7 / count)))` over IEEE doubles with banker's rounding;
for the reachable values (`count ∈ [1,7]`, `i < count`) the only ties are
at 3.5, where banker's rounding and half-up rounding both give 4, and the
float products hit no other rounding boundary, so this integer form is
exact for every reachable input. -/
def roundHalfUp (p q : Nat) : Nat := (2 * p + q) / (2 * q)

/-- Source: `_evenly_spaced_days(count, week_start)`. -/
def evenly_spaced_days (count : Int) (week_start : Int) : List Int :=
  if count ≤ 1 then [week_start]
  else
    let count := max 1 (min count 7)
    (List.range count.toNat).map
      (fun i => week_start + (min 6 (roundHalfUp (7 * i) count.toNat) : Int))

/-- Insertion into a sorted `List Int`. -/
def insertSortedInt (x : Int) : List Int → List Int
  | [] => [x]
  | y :: ys => if x ≤ y then x :: y :: ys else y :: insertSortedInt x ys

/-- Ascending insertion sort. -/
def sortInts (l : List Int) : List Int := l.foldr insertSortedInt []

/-- Duplicate removal (membership-preserving; order is irrelevant because
the result is sorted afterwards, mirroring Python's `sorted(set(...))`). -/
def pyEraseDups : List Int → List Int
  | [] => []
  | x :: xs => if x ∈ xs then pyEraseDups xs else x :: pyEraseDups xs

/-- Python `sorted({...})` over dates. -/
def sortedDedup (l : List Int) : List Int := sortInts (pyEraseDups l)

/-- Source: `_expand_target_days(cadence_struct, week_start, repeat_daily,
first_day_hint)`.  The source parses `first_day_hint` into a local that is
never read, so the argument is accepted and ignored; a `date` object is
always truthy, so the final `if day` filter keeps every element. -/
def expand_target_days (cadence_struct : CadenceStruct) (week_start : Int)
    (repeat_daily : Bool) (_first_day_hint : Option String) : List Int :=
  let cadence_type := pyLower (pyOrStr cadence_struct.type cadence_struct.cadence)
  let xCount : Int :=
    match pyOrOptInt cadence_struct.count cadence_struct.times_per_week with
    | some n => if n ≠ 0 then n else 1
    | none => 1
  let days : List Int :=
    if cadence_type = "daily" ∨ (repeat_daily ∧ strContains cadence_type "daily") then
      (List.range 7).map (fun i => week_start + (i : Int))
    else if cadence_type = "specific_days" then
      (normalize_days cadence_struct.days).map
        (fun idx => week_start + (idx - week_start.emod 7).emod 7)
    else if cadence_type = "x_per_week" ∨ cadence_type = "times_per_week" then
      evenly_spaced_days xCount week_start
    else if cadence_type.endsWith "x_per_week" then
      let count := match pyInt? ((pySplit 'x' cadence_type).headD "") with
        | some n => n
        | none => 1
      evenly_spaced_days count week_start
    else if cadence_type = "2x_in_week" ∨ cadence_type = "3x_in_week" then
      let count := match pyInt? ((pySplit 'x' cadence_type).headD "") with
        | some n => n
        | none => 1
      evenly_spaced_days count week_start
    else if cadence_type = "once" ∨ cadence_type = "one_time" then [week_start]
    else if cadence_type = "twice" ∨ cadence_type = "twice_per_week" ∨
        cadence_type = "two_per_week" then
      evenly_spaced_days 2 week_start
    else if cadence_type = "thrice" ∨ cadence_type = "thrice_per_week" ∨
        cadence_type = "three_per_week" then
      evenly_spaced_days 3 week_start
    else if cadence_type = "once_per_week" then [week_start]
    else [week_start]
  sortedDedup days

/-! ### `resolution_decomposer.py` — day/time conflict avoidance -/

/-- The per-run day ledger, a total map from day to the durations already
placed there (`setdefault(day, [])` makes absent and empty entries
indistinguishable). -/
abbrev Ledger : Type := Int → List Int

/-- Append a duration to one day's ledger entry. -/
def ledgerAppend (led : Ledger) (day duration : Int) : Ledger :=
  fun x => if x = day then led day ++ [duration] else led x

/-- The acceptance condition inside `_schedule_on_or_after`'s scan loop. -/
def schedule_accept (preferred_days : List Int) (duration : Int) (daily_load : Ledger)
    (last_long_day : Option Int) (day : Int) : Bool :=
  let weekday := day.emod 7
  let matches_preference : Bool := preferred_days.isEmpty || weekday ∈ preferred_days
  let effective_load := ((daily_load day).filter (fun d => d ≥ 15)).length
  let long_conflict : Bool := (duration > 60 : Bool) &&
    (match last_long_day with
     | some l => (day - l ≤ 1 : Bool)
     | none => false)
  matches_preference && decide (effective_load < 2) && !long_conflict

/-- First `k` with `start ≤ k < start + fuel` and `ok k`, scanning upward. -/
def findFirstOffset (ok : Nat → Bool) (start : Nat) : Nat → Option Nat
  | 0 => none
  | n + 1 => if ok start then some start else findFirstOffset ok (start + 1) n

/-- Source: `_schedule_on_or_after(target_day, preferred_days, duration, daily_load,
last_long_day)`: scan up to 21 consecutive days for an acceptable day,
else force-place on the proposed day; the chosen day's ledger entry gains
the task's duration. -/
def schedule_on_or_after (target_day : Int) (preferred_days : List Int) (duration : Int)
    (daily_load : Ledger) (last_long_day : Option Int) : Int × Ledger :=
  match findFirstOffset
      (fun k => schedule_accept preferred_days duration daily_load last_long_day
        (target_day + (k : Int))) 0 21 with
  | some k => (target_day + (k : Int), ledgerAppend daily_load (target_day + (k : Int)) duration)
  | none => (target_day, ledgerAppend daily_load target_day duration)

/-- Source: `_time_str_to_minutes(value)` (decomposer version: failures yield
`8 * 60`). -/
def timeStrToMin (value : String) : Int :=
  match pySplit ':' value with
  | [p1, p2] =>
    match pyInt? p1, pyInt? p2 with
    | some h, some m => h * 60 + m
    | _, _ => 8 * 60
  | _ => 8 * 60

/-- Source: `_minutes_to_time(total_minutes)` (wraps modulo 24 h). -/
def minutes_to_time (total_minutes : Int) : String :=
  let t := (total_minutes.emod (24 * 60)).toNat
  fmtTime (t / 60) (t % 60)

/-- Set-style insertion (Python `set.add`). -/
def setAdd (s : List String) (x : String) : List String :=
  if x ∈ s then s else x :: s

/-- Source: `_find_free_time_slot(base_time, used_times)`: probe offsets
`0, 30, 60, 90, 120` minutes past the base time, return the first
candidate not yet used (recording it); if all five are taken, re-use and
record the base time itself. -/
def find_free_time_slot (base_time : String) (used_times : List String) :
    String × List String :=
  let base_minutes := timeStrToMin base_time
  match findFirstOffset
      (fun o => !(decide (minutes_to_time (base_minutes + (o : Int) * 30) ∈ used_times))) 0 5 with
  | some o =>
    let c := minutes_to_time (base_minutes + (o : Int) * 30)
    (c, setAdd used_times c)
  | none => (base_time, setAdd used_times base_time)

/-! ### `resolution_decomposer.py` — plan data model -/

/-- Source: `TaskDraft` (pydantic model, fields after `model_dump()`). -/
structure TaskDraft where
  title : String
  intent : String
  estimated_duration_min : Int
  cadence : CadenceVal
  suggested_day : Option String := none
  suggested_time : Option String := none
  confidence : Option String := some "medium"
  scheduled_day : Option String := none
  scheduled_time : Option String := none
  note : Option String := none
  deriving Repr, DecidableEq

/-- A task dictionary flowing through the pipeline: the dumped `TaskDraft`
fields plus the transient `_cadence_struct` key added by enrichment. -/
abbrev TaskDict : Type := TaskDraft × Option CadenceStruct

/-- Source: `WeeklyMilestone`. -/
structure WeeklyMilestone where
  week_number : Int
  focus_summary : String
  deriving Repr, DecidableEq

/-- Source: `PlanWeekSection`. -/
structure PlanWeekSection where
  week : Int
  focus : String
  tasks : List TaskDict
  deriving Repr

/-- Source: `EvaluationResult` (from the plan evaluator, whose module is consumed
here through its interface only). -/
structure EvaluationResult where
  score : Int
  passed : Bool
  budget_violations : List String := []
  vagueness_flags : List String := []
  cadence_issues : List String := []
  overload_warnings : List String := []
  repair_instructions : Option String := none
  deriving Repr, DecidableEq

/-- The `evaluation_summary` dict written by `_finalize_plan`
(`evaluation.to_dict()` plus the three ladder flags). -/
structure EvalSummary where
  result : EvaluationResult
  repair_used : Bool
  regenerate_used : Bool
  fallback_used : Bool
  deriving Repr, DecidableEq

/-- Source: `ResolutionPlan` (pydantic model / plan dict).  `evaluation_summary`
is `none` for the initial empty dict. -/
structure ResolutionPlan where
  resolution_title : String
  why_this_matters : String
  duration_weeks : Int
  milestones : List WeeklyMilestone
  week_1_tasks : List TaskDict
  weeks : List PlanWeekSection
  band : String := "medium"
  band_rationale : String := "Default effort band"
  evaluation_summary : Option EvalSummary := none
  deriving Repr

/-- The pydantic bound on `ResolutionPlan.duration_weeks`
(`Field(..., ge=1, le=12)`). -/
def duration_weeks_schema_ok (n : Int) : Bool := 1 ≤ n && n ≤ 12

/-- The caller-supplied `user_context` fields the scheduler reads. -/
structure UserContext where
  preferred_days : List String := []
  preferred_time_blocks : List String := []
  work_hours : Option String := none
  deriving Repr

/-! ### `resolution_decomposer.py` — enrichment helpers -/

/-- Source: `_extract_duration(task)`: the dumped `estimated_duration_min` when
truthy, else 30 (the `duration_min` fallback key never survives
`model_dump`). -/
def extract_duration (task : TaskDraft) : Int :=
  if task.estimated_duration_min ≠ 0 then task.estimated_duration_min else 30

/-- Source: `_confidence_level(preferred_days, preferred_blocks)`. -/
def confidence_level (preferred_days : List Int) (preferred_blocks : List String) : String :=
  if preferred_days ≠ [] ∧ preferred_blocks ≠ [] then "high"
  else if preferred_days ≠ [] ∨ preferred_blocks ≠ [] then "medium"
  else "low"

/-- Source: `_preferred_time_for_resolution(resolution_type, user_blocks)`. -/
def preferred_time_for_resolution (resolution_type : Option String)
    (user_blocks : List String) : String :=
  match user_blocks with
  | first :: _ =>
    let f := pyLower (pyStrip first)
    if f = "morning" then "07:30"
    else if f = "afternoon" then "13:00"
    else if f = "evening" then "19:00"
    else if f = "night" then "21:00"
    else "09:00"
  | [] =>
    let n := pyLower (resolution_type.getD "")
    if n = "habit" ∨ n = "health" ∨ n = "fitness" then "07:30"
    else if n = "skill" ∨ n = "learning" ∨ n = "project" ∨ n = "hobby" then "19:00"
    else "10:00"

/-- Source: `_pick_time(preferred_time, work_hours)`: shift into `18:30` when the
preferred hour falls inside parseable work hours; any parse failure keeps
the preferred time (the `except` branch). -/
def pick_time (preferred_time : String) (work_hours : Option String) : String :=
  match work_hours with
  | none => preferred_time
  | some wh =>
    match pySplit '-' wh with
    | [seg1, seg2] =>
      match pyInt? ((pySplit ':' preferred_time).headD ""),
          pyInt? ((pySplit ':' (pyStrip seg1)).headD ""),
          pyInt? ((pySplit ':' (pyStrip seg2)).headD "") with
      | some ph, some sh, some eh =>
        if sh ≤ ph ∧ ph < eh then "18:30" else preferred_time
      | _, _, _ => preferred_time
    | _ => preferred_time

/-- The three pieces of mutable scheduling state inside
`_enrich_tasks_with_schedule`. -/
structure SchedState where
  daily_load : Ledger
  last_long_day : Option Int
  daily_time_slots : Int → List String

/-- The inner `for target_day in target_days` loop body. -/
def enrichDays (base : TaskDraft) (cadStruct : CadenceStruct) (duration : Int)
    (preferred_days : List Int) (base_time : String) (confidence : String) :
    List Int → SchedState → List TaskDict × SchedState
  | [], st => ([], st)
  | target_day :: rest, st =>
    let (candidate_day, load') :=
      schedule_on_or_after target_day preferred_days duration st.daily_load st.last_long_day
    let last_long' := if duration > 60 then some candidate_day else st.last_long_day
    let (suggested_time, used') :=
      find_free_time_slot base_time (st.daily_time_slots candidate_day)
    let slots' := fun x => if x = candidate_day then used' else st.daily_time_slots x
    let iso_day := toString candidate_day
    let clone : TaskDraft :=
      { base with
        suggested_day := some iso_day
        suggested_time := some suggested_time
        scheduled_day := some iso_day
        scheduled_time := some suggested_time
        estimated_duration_min := duration
        confidence := some confidence }
    let (tail, st') := enrichDays base cadStruct duration preferred_days base_time confidence
      rest { daily_load := load', last_long_day := last_long', daily_time_slots := slots' }
    ((clone, some cadStruct) :: tail, st')

/-- The outer `for original in tasks` loop. -/
def enrichTasks (week_start : Int) (repeat_daily : Bool) (preferred_days : List Int)
    (base_time : String) (confidence : String) :
    List TaskDraft → SchedState → List TaskDict
  | [], _ => []
  | task :: rest, st =>
    let duration := extract_duration task
    let cadStruct := build_cadence_struct task.cadence
    let targets0 := expand_target_days cadStruct week_start repeat_daily task.scheduled_day
    let targets := if targets0 = [] then [week_start] else targets0
    let (clones, st') :=
      enrichDays task cadStruct duration preferred_days base_time confidence targets st
    clones ++ enrichTasks week_start repeat_daily preferred_days base_time confidence rest st'

/-- Source: `_enrich_tasks_with_schedule(tasks, resolution_type, user_context,
repeat_daily)`; `today` stands for `date.today()`, threaded in explicitly. -/
def enrich_tasks_with_schedule (tasks : List TaskDraft) (resolution_type : Option String)
    (user_context : Option UserContext) (repeat_daily : Bool) (today : Int) :
    List TaskDict :=
  let week_start := today
  let ctx := user_context.getD {}
  let preferred_days := normalize_days ctx.preferred_days
  let preferred_blocks := ctx.preferred_time_blocks
  let work_hours := ctx.work_hours
  let confidence := confidence_level preferred_days preferred_blocks
  let time_pref := preferred_time_for_resolution resolution_type preferred_blocks
  let base_time := pick_time time_pref work_hours
  enrichTasks week_start repeat_daily preferred_days base_time confidence tasks
    { daily_load := fun _ => [], last_long_day := none, daily_time_slots := fun _ => [] }

/-! ### `resolution_decomposer.py` — cadence stringification -/

/-- Python `str.capitalize()`. -/
def pyCapitalize (s : String) : String :=
  match s.data with
  | [] => ""
  | c :: cs => ⟨Char.toUpper c :: cs.map Char.toLower⟩

/-- Source: `_stringify_cadence(struct)`. -/
def stringify_cadence (struct : CadenceStruct) : String :=
  let n := normalize_cadence_struct struct
  let cadence_type := pyOrStr n.type n.cadence
  let count := pyOrOptInt n.count n.times_per_week
  let countTruthy : Bool := match count with | some k => decide (k ≠ 0) | none => false
  let days := n.days
  if cadence_type = "daily" then "daily"
  else if cadence_type = "one_time" ∨ cadence_type = "once" then "once"
  else if (cadence_type = "x_per_week" ∨ cadence_type = "times_per_week") ∧ countTruthy then
    toString (count.getD 0) ++ "x per week"
  else if cadence_type.endsWith "x_per_week" ∧
      (let p := (pySplit 'x' cadence_type).headD ""
       p ≠ "" ∧ p.data.all Char.isDigit) then
    (pySplit 'x' cadence_type).headD "" ++ "x per week"
  else if cadence_type = "specific_days" ∧ days ≠ [] then
    "Specific days: " ++ String.intercalate ", " (days.map pyCapitalize)
  else pyOrStr cadence_type "flex"

/-- Source: `_public_task_data(task)`: stringify the structured cadence and drop
the transient `_cadence_struct` key. -/
def public_task_data (td : TaskDict) : TaskDraft :=
  let t := td.1
  let cadence_struct : Option CadenceStruct :=
    match td.2 with
    | some c => some c
    | none =>
      match t.cadence with
      | CadenceVal.struct c => some c
      | _ => none
  match cadence_struct with
  | some c => { t with cadence := CadenceVal.str (stringify_cadence c) }
  | none => t

/-! ### `resolution_decomposer.py` — specialty templates and fallback plan

Prompt-hint strings feed only the LLM prompt (absorbed into the oracle
below) and are omitted from the embedded config. -/

/-- A task template inside `SPECIALTY_CONFIG` (`.get` fields optional). -/
structure SpecialtyTask where
  title : String
  intent : String
  note : Option String := none
  duration : Option Int := none
  cadence : Option CadenceVal := none
  deriving Repr

/-- One `SPECIALTY_CONFIG` entry (`types`/`keywords` empty when the key is
absent). -/
structure SpecialtyConfig where
  types : List String := []
  keywords : List String := []
  tasks : List SpecialtyTask := []
  deriving Repr

/-- The marker the templates use for goal-focus substitution. -/
def goalFocusMarker : String := "\x7bgoal_focus\x7d"

/-- Source: `SPECIALTY_CONFIG`, in dict insertion order. -/
def SPECIALTY_CONFIG : List (String × SpecialtyConfig) :=
  [("music_skill",
    { types := ["skill", "learning"]
      keywords := ["music", "guitar", "piano", "violin", "cello", "drum", "vocal", "sing",
        "song"]
      tasks :=
        [{ title := "Stage instrument and tuner"
           intent := "Make practice frictionless by prepping the instrument corner and tuner."
           note := some "Lay out instrument, tuner, metronome app, and current sheet music."
           duration := some 10
           cadence := some (CadenceVal.str "flex") },
         { title := "Chromatic scale warm-up (C to C)"
           intent := "Rebuild finger agility and tone before diving into repertoire."
           note := some
             "Metronome 70 BPM, 3 passes legato + 3 passes staccato while focusing on even tone."
           duration := some 20
           cadence := some (CadenceVal.struct
             { type := "specific_days", days := ["monday", "wednesday", "friday"],
               times := ["evening"] }) },
         { title := "Chord progression loop (I-IV-V)"
           intent := "Lock in smooth transitions at a sustainable tempo."
           note := some
             "Loop the progression for 15 minutes, record a take, jot one insight about tension/release."
           duration := some 25
           cadence := some (CadenceVal.struct
             { type := "x_per_week", count := some 3, times := ["evening"] }) }] }),
   ("fitness",
    { types := ["health", "fitness", "habit"]
      keywords := ["run", "running", "cardio", "workout", "gym", "yoga", "strength",
        "training"]
      tasks :=
        [{ title := "Stage running kit"
           intent := "Signal commitment by staging shoes, clothes, bottle, and timer."
           note := some "Lay everything out near the door so mornings stay effortless."
           duration := some 10
           cadence := some (CadenceVal.str "flex") },
         { title := "Run-walk interval: 30 minutes"
           intent := "Introduce running with structured intervals to hit the target duration."
           note := some "Alternate 2 min run / 1 min walk for 10 rounds; note effort 1-10."
           duration := some 30
           cadence := some (CadenceVal.struct
             { type := "x_per_week", count := some 2, times := ["morning"] }) },
         { title := "Mobility + strides"
           intent := "Keep joints healthy and reinforce running form on non-run days."
           note := some "10 min mobility (90/90 switches) plus 4 x 20-second strides."
           duration := some 20
           cadence := some (CadenceVal.struct
             { type := "x_per_week", count := some 2, times := ["morning"] }) }] }),
   ("habit",
    { types := ["habit"]
      keywords := ["routine", "mindful", "journal", "sleep", "morning", "evening"]
      tasks :=
        [{ title := "Design habit trigger + environment"
           intent := "Pair the habit with a reliable cue so it happens automatically."
           note := some
             "Decide the cue (e.g., after brushing teeth) and stage supplies where the cue happens."
           duration := some 10
           cadence := some (CadenceVal.str "flex") },
         { title := "Two-minute starter rep"
           intent := "Shrink the habit so starting feels effortless."
           note := some
             "Run a 2-minute version of the habit daily to prove it fits (timer on phone)."
           duration := some 5
           cadence := some (CadenceVal.struct { type := "daily", times := ["morning"] }) },
         { title := "Evening reflection note"
           intent := "Capture one line about how the habit felt to reinforce identity."
           note := some "Log a quick win or friction point in Notes before bed."
           duration := some 5
           cadence := some (CadenceVal.struct { type := "daily", times := ["evening"] }) }] }),
   ("project",
    { types := ["project", "work"]
      keywords := ["project", "launch", "deck", "presentation", "website", "build"]
      tasks :=
        [{ title := "Reset workspace + capture blockers"
           intent := "Clear physical and digital distractions before execution."
           note := some
             "Archive stale tabs, dump blockers into a scratchpad, and reopen the project doc."
           duration := some 15
           cadence := some (CadenceVal.str "flex") },
         { title := "Draft outline for " ++ goalFocusMarker
           intent := "Define the structure of the weekâ€™s deliverable before filling details."
           note := some
             "Sketch bullet outline with intro/sections/outro; mark unknowns with '?' for follow-up."
           duration := some 30
           cadence := some (CadenceVal.struct
             { type := "x_per_week", count := some 2, times := ["morning"] }) },
         { title := "Ship micro-deliverable + summary"
           intent := "Finish a tangible slice and log what changed."
           note := some
             "Complete one section or ticket, then send a 3-bullet summary/report in your tracker."
           duration := some 30
           cadence := some (CadenceVal.struct
             { type := "x_per_week", count := some 2, times := ["evening"] }) }] }),
   ("skill_generic",
    { types := ["skill", "learning"]
      tasks :=
        [{ title := "Stage study/practice zone"
           intent := "Remove friction by prepping tools, notes, and focus playlist."
           note := some "Close irrelevant tabs, gather materials, and set a 30-minute timer."
           duration := some 10
           cadence := some (CadenceVal.str "flex") },
         { title := "Deliberate practice block: hardest subskill"
           intent := "Attack the most intimidating part of " ++ goalFocusMarker ++
             " with intention."
           note := some "Pick one micro-skill, run a 20-minute drill, and log accuracy or speed."
           duration := some 25
           cadence := some (CadenceVal.struct
             { type := "x_per_week", count := some 3, times := ["evening"] }) },
         { title := "Reflection + adjustments"
           intent := "Integrate lessons so the next session improves."
           note := some "Write 3 bullets: what worked, what needs help, what to try next."
           duration := some 10
           cadence := some (CadenceVal.struct
             { type := "specific_days", days := ["sunday"], times := ["evening"] }) }] }),
   ("generic",
    { tasks :=
        [{ title := "Clarify outcome + definition of done"
           intent := "Write down what success looks like so every task aligns."
           note := some ("List 2-3 objective signals that prove " ++ goalFocusMarker ++
             " progressed.")
           duration := some 15
           cadence := some (CadenceVal.str "flex") },
         { title := "Protect one focus block"
           intent := "Schedule time on the calendar dedicated to the goal."
           note := some "Block a 25-minute session and silence notifications."
           duration := some 25
           cadence := some (CadenceVal.struct
             { type := "x_per_week", count := some 3, times := ["morning"] }) },
         { title := "Capture insights + next micro-step"
           intent := "End Week 1 with clarity on what to adjust."
           note := some "Log one win, one friction, and the smallest next action."
           duration := some 10
           cadence := some (CadenceVal.struct
             { type := "specific_days", days := ["sunday"], times := ["evening"] }) }] })]

/-- Source: `TYPE_DEFAULT_TEMPLATE.get(normalized_type, "generic")`. -/
def TYPE_DEFAULT_TEMPLATE (t : String) : String :=
  if t = "skill" ∨ t = "learning" then "skill_generic"
  else if t = "habit" then "habit"
  else if t = "health" ∨ t = "fitness" then "fitness"
  else if t = "project" ∨ t = "work" then "project"
  else "generic"

/-- The keyword scan of `_detect_specialty_key` over the config entries. -/
def detectLoop (text typ : String) : List (String × SpecialtyConfig) → Option String
  | [] => none
  | (key, cfg) :: rest =>
    if cfg.keywords ≠ [] ∧ cfg.keywords.any (fun kw => strContains text kw) then
      if cfg.types = [] ∨ typ = "" ∨ typ ∈ cfg.types then some key
      else detectLoop text typ rest
    else detectLoop text typ rest

/-- Source: `_detect_specialty_key(user_input, resolution_type)`. -/
def detect_specialty_key (user_input : String) (resolution_type : Option String) : String :=
  let text := pyLower user_input
  let typ := pyLower (resolution_type.getD "")
  match detectLoop text typ SPECIALTY_CONFIG with
  | some key => key
  | none => TYPE_DEFAULT_TEMPLATE typ

/-- Source: `SPECIALTY_CONFIG.get(key, SPECIALTY_CONFIG["generic"])`. -/
def specialtyConfigGet (key : String) : SpecialtyConfig :=
  match SPECIALTY_CONFIG.find? (fun kv => kv.1 = key) with
  | some kv => kv.2
  | none => { tasks := (SPECIALTY_CONFIG.getLastD ("generic", {})).2.tasks }

/-- Python `str.split()` (whitespace split, empty chunks dropped). -/
def pySplitWSAux : List Char → List Char → List (List Char)
  | [], acc => if acc = [] then [] else [acc.reverse]
  | c :: cs, acc =>
    if pyIsSpace c then
      if acc = [] then pySplitWSAux cs [] else acc.reverse :: pySplitWSAux cs []
    else pySplitWSAux cs (c :: acc)

/-- Python `s.split()`. -/
def pySplitWS (s : String) : List String :=
  (pySplitWSAux s.data []).map (fun l => ⟨l⟩)

/-- Source: `_goal_focus_phrase(user_input)` (a `None` argument is the empty
string). -/
def goal_focus_phrase (user_input : String) : String :=
  let cleaned := pyStrip user_input
  if cleaned = "" then "your goal"
  else
    let tokens := pySplitWS (cleaned.replace "\n" " ")
    let snippet := pyStrip (String.intercalate " " (tokens.take 6))
    pyOrStr snippet "your goal"

/-- Source: `_format_template_text(value, goal_focus)`; the templates contain no
stray braces, so `str.format` never raises here. -/
def format_template_text (value : Option String) (goal_focus : String) : Option String :=
  value.map (fun s => s.replace goalFocusMarker goal_focus)

/-- Source: `_default_duration(resolution_type)`. -/
def default_duration (resolution_type : Option String) : Int :=
  let n := pyLower (resolution_type.getD "")
  if n = "habit" ∨ n = "skill" ∨ n = "learning" then 30
  else if n = "health" ∨ n = "fitness" then 25
  else if n = "project" ∨ n = "work" then 45
  else 30

/-- Source: `_default_cadence(resolution_type)`. -/
def default_cadence (resolution_type : Option String) : String :=
  let n := pyLower (resolution_type.getD "")
  if n = "habit" ∨ n = "skill" ∨ n = "learning" then "daily performance windows"
  else if n = "health" ∨ n = "fitness" then "5x weekly mornings"
  else "3-4x weekly focus blocks"

/-- The four rotating focus template strings of `_fallback_plan`. -/
def focusTemplates : List String :=
  ["Ground yourself and set a compassionate baseline.",
   "Design tiny rituals that keep momentum alive.",
   "Practice the core habit consistently with checkpoints.",
   "Review progress and celebrate micro wins."]

/-- The `for week in range(1, weeks + 1)` milestone loop of
`_fallback_plan`. -/
def fallback_milestones (weeks : Int) : List WeeklyMilestone :=
  (List.range weeks.toNat).map (fun i =>
    let week : Int := Int.ofNat i + 1
    ({ week_number := week
       focus_summary := (focusTemplates.getD (min i 3) "") ++ " (Week " ++ toString week ++
         ")" } : WeeklyMilestone))

/-- Source: `_fallback_plan(user_input, duration_weeks, resolution_type,
user_context, band, band_rationale, refined_goal)`: the deterministic
plan used when no LLM is available or every attempt failed.  The
`refined_goal` argument is accepted and unused, as in the source; `today`
threads `date.today()`. -/
def fallback_plan (today : Int) (user_input : String) (duration_weeks : Int)
    (resolution_type : Option String) (user_context : Option UserContext)
    (band band_rationale : String) : ResolutionPlan :=
  let title := pyOrStr (pyStrip user_input) "FlowBuddy Goal"
  let weeks := max 4 (min 12 (if duration_weeks ≠ 0 then duration_weeks else 8))
  let specialty_key := detect_specialty_key user_input resolution_type
  let specialty_config := specialtyConfigGet specialty_key
  let task_templates :=
    if specialty_config.tasks.isEmpty then (specialtyConfigGet "generic").tasks
    else specialty_config.tasks
  let goal_focus := goal_focus_phrase user_input
  let milestones := fallback_milestones weeks
  let week_tasks_raw : List TaskDraft :=
    task_templates.map (fun tpl =>
      { title := (format_template_text (some tpl.title) goal_focus).getD ""
        intent := (format_template_text (some tpl.intent) goal_focus).getD ""
        estimated_duration_min := tpl.duration.getD (default_duration resolution_type)
        cadence := tpl.cadence.getD (CadenceVal.str (default_cadence resolution_type))
        note := format_template_text tpl.note goal_focus })
  let enriched_tasks :=
    enrich_tasks_with_schedule week_tasks_raw resolution_type user_context false today
  let public_tasks : List TaskDict :=
    enriched_tasks.map (fun td => (public_task_data td, none))
  let week_sections : List PlanWeekSection :=
    milestones.map (fun m =>
      ({ week := m.week_number
         focus := m.focus_summary
         tasks := if m.week_number = (1 : Int) then public_tasks else [] } : PlanWeekSection))
  { resolution_title := if title.length < 120 then title else (title.take 117) ++ "..."
    why_this_matters :=
      "Sarathi AI reminder: name the emotional stake so motivation feels grounded."
    duration_weeks := weeks
    milestones := milestones
    week_1_tasks := public_tasks
    weeks := week_sections
    band := band
    band_rationale := band_rationale
    evaluation_summary := none }

/-! ### `resolution_decomposer.py` — orchestrator -/

/-- Source: `_post_process_plan(plan_dict, resolution_type, user_context)`. -/
def post_process_plan (today : Int) (plan : ResolutionPlan) (resolution_type : Option String)
    (user_context : Option UserContext) : ResolutionPlan :=
  let enriched := enrich_tasks_with_schedule (plan.week_1_tasks.map Prod.fst)
    resolution_type user_context true today
  let plan := { plan with week_1_tasks := enriched }
  if plan.weeks.isEmpty then
    { plan with weeks :=
        (plan.milestones.zip (List.range plan.milestones.length)).map (fun p =>
          ({ week := p.1.week_number
             focus := p.1.focus_summary
             tasks := if p.2 = 0 then enriched else [] } : PlanWeekSection)) }
  else
    match plan.weeks with
    | [] => plan
    | first :: rest => { plan with weeks := { first with tasks := enriched } :: rest }

/-- Source: `_finalize_plan(plan_dict, evaluation, band_label, band_rationale,
repair_used, regenerate_used, fallback_used)` — the function body itself,
once all seven parameters are bound. -/
def finalize_plan (plan : ResolutionPlan) (evaluation : EvaluationResult)
    (band_label band_rationale : String) (repair_used regenerate_used fallback_used : Bool) :
    ResolutionPlan :=
  { plan with
    band := band_label
    band_rationale := band_rationale
    evaluation_summary := some
      { result := evaluation
        repair_used := repair_used
        regenerate_used := regenerate_used
        fallback_used := fallback_used }
    week_1_tasks := plan.week_1_tasks.map (fun td => (public_task_data td, none))
    weeks := plan.weeks.map (fun s =>
      { s with tasks := s.tasks.map (fun td => (public_task_data td, none)) }) }

/-- Errors a call can raise to its caller. -/
inductive PyErr where
  | typeError : PyErr
  | raised : PyErr
  deriving Repr, DecidableEq

/-- The keyword arguments supplied at a `_finalize_plan` call site for its
three required boolean parameters (`none` = not supplied). -/
structure FinalizeKwArgs where
  repair_used : Option Bool
  regenerate_used : Option Bool
  fallback_used : Option Bool

/-- CPython call binding for `_finalize_plan`: all three boolean
parameters are required and have no defaults, so a call site that leaves
one unbound raises `TypeError` before the body runs. -/
def callFinalizePlan (plan : ResolutionPlan) (evaluation : EvaluationResult)
    (band_label band_rationale : String) (kw : FinalizeKwArgs) :
    Except PyErr ResolutionPlan :=
  match kw.repair_used, kw.regenerate_used, kw.fallback_used with
  | some r, some g, some f =>
    Except.ok (finalize_plan plan evaluation band_label band_rationale r g f)
  | _, _, _ => Except.error PyErr.typeError

/-- Outcomes of the up-to-three external LLM calls a single
`decompose_resolution_with_llm` run can make.  `gen` is the initial
generation (`.error` = any raised transport/timeout/JSON/validation
failure; `.ok` = a schema-validated plan).  `repair`/`regen` are the
corrective calls, whose exceptions the source swallows into `None`. -/
structure LLMOracle where
  gen : Except Unit ResolutionPlan
  repair : Option ResolutionPlan
  regen : Option ResolutionPlan

/-- Truthiness of `evaluation.repair_instructions`. -/
def repairInstructionsTruthy (e : EvaluationResult) : Bool :=
  match e.repair_instructions with
  | some s => s ≠ ""
  | none => false

/-- The `sanitized_weeks = max(4, min(12, duration_weeks))` clamp at the
top of `decompose_resolution_with_llm`, applied before prompt
construction and before every `_fallback_plan` call. -/
def sanitized_weeks (duration_weeks : Int) : Int := max 4 (min 12 duration_weeks)

/-- The repair rung of the ladder (`if not evaluation.passed and
evaluation.repair_instructions`): one corrective call whose own failure is
swallowed (`None`); returns the current plan/evaluation and the
`repair_used` flag. -/
def repair_stage (today : Int) (resolution_type : Option String)
    (user_context : Option UserContext) (orep : Option ResolutionPlan)
    (evaluator : ResolutionPlan → EvaluationResult) (plan : ResolutionPlan)
    (evaluation : EvaluationResult) : ResolutionPlan × EvaluationResult × Bool :=
  if ¬ evaluation.passed ∧ repairInstructionsTruthy evaluation then
    match orep with
    | some repaired =>
      let p := post_process_plan today repaired resolution_type user_context
      (p, evaluator p, true)
    | none => (plan, evaluation, true)
  else (plan, evaluation, false)

/-- The regenerate rung (`if not evaluation.passed and client`; the client
exists in this branch). -/
def regen_stage (today : Int) (resolution_type : Option String)
    (user_context : Option UserContext) (oreg : Option ResolutionPlan)
    (evaluator : ResolutionPlan → EvaluationResult) (plan : ResolutionPlan)
    (evaluation : EvaluationResult) : ResolutionPlan × EvaluationResult × Bool :=
  if ¬ evaluation.passed then
    match oreg with
    | some regenerated =>
      let p := post_process_plan today regenerated resolution_type user_context
      (p, evaluator p, true)
    | none => (plan, evaluation, true)
  else (plan, evaluation, false)

/-- The fallback rung (`if not evaluation.passed`). -/
def fallback_stage (today : Int) (user_input : String) (weeks : Int)
    (resolution_type : Option String) (user_context : Option UserContext)
    (band_label rationale : String) (evaluator : ResolutionPlan → EvaluationResult)
    (plan : ResolutionPlan) (evaluation : EvaluationResult) :
    ResolutionPlan × EvaluationResult × Bool :=
  if ¬ evaluation.passed then
    let p := fallback_plan today user_input weeks resolution_type user_context
      band_label rationale
    (p, evaluator p, true)
  else (plan, evaluation, false)

/-- Source: `decompose_resolution_with_llm`: the generate → evaluate → repair →
regenerate → fallback ladder.  External effects are injected: `today` for
`date.today()`, `api_key_present` for the `settings.openai_api_key`
check, `oracle` for the LLM calls, and `evaluator` for
`evaluate_plan(plan, band, type, goal_requirements)` with its non-plan
arguments already applied (the evaluator module is consumed through its
interface; every theorem below holds for an arbitrary evaluator).
Prompt building and `_refine_resolution_goal` feed only the prompt text
and the evaluator's auxiliary argument, both absorbed by those
parameters.  The returned `Except` carries exceptions the function
raises to its caller. -/
def decompose_resolution_with_llm (today : Int) (user_input : String) (duration_weeks : Int)
    (resolution_type : Option String) (user_context : Option UserContext)
    (effort_band : Option String) (band_rationale : Option String)
    (api_key_present : Bool) (oracle : LLMOracle)
    (evaluator : ResolutionPlan → EvaluationResult) : Except PyErr ResolutionPlan :=
  let weeks := sanitized_weeks duration_weeks
  let band_label := pyOrStr (effort_band.getD "") "medium"
  let rationale := pyOrStr (band_rationale.getD "") "Defaulted effort band."
  if ¬ api_key_present then
    let plan := fallback_plan today user_input weeks resolution_type user_context
      band_label rationale
    let evaluation := evaluator plan
    -- Source line: `return _finalize_plan(plan_dict, evaluation, band_label,
    -- band_rationale, repair_used=False, fallback_used=True)` — the required
    -- `regenerate_used` parameter is not supplied.
    callFinalizePlan plan evaluation band_label rationale
      { repair_used := some false, regenerate_used := none, fallback_used := some true }
  else
    -- `_generate_plan_via_llm` is called without a surrounding try/except:
    -- any exception it raises propagates to the caller.
    match oracle.gen with
    | Except.error _ => Except.error PyErr.raised
    | Except.ok raw_plan =>
      let plan := post_process_plan today raw_plan resolution_type user_context
      let evaluation := evaluator plan
      let (plan, evaluation, repair_used) :=
        repair_stage today resolution_type user_context oracle.repair evaluator
          plan evaluation
      let (plan, evaluation, regenerate_used) :=
        regen_stage today resolution_type user_context oracle.regen evaluator
          plan evaluation
      let (plan, evaluation, fallback_used) :=
        fallback_stage today user_input weeks resolution_type user_context
          band_label rationale evaluator plan evaluation
      callFinalizePlan plan evaluation band_label rationale
        { repair_used := some repair_used, regenerate_used := some regenerate_used,
          fallback_used := some fallback_used }

/-- The spec's formula for `XPerWeek(count)` (claim C4, stated from the
spec's words for comparison with the code): clamp `count` to `[1, 7]`,
and place the i-th of the clamped count occurrences at offset
`round(i × 7 / count)` clamped to `[0, 6]` from the week start. -/
def spec_xPerWeekDays (week_start count : Int) : List Int :=
  let k := max 1 (min count 7)
  (List.range k.toNat).map
    (fun i => week_start + (min 6 (roundHalfUp (7 * i) k.toNat) : Int))

/-! ### Claim C5 — day selection with conflict avoidance -/

/-- The claim's acceptance predicate for `schedule_on_or_after` (claim C5
wording, for comparison with the code): condition (c) rejects any day
within one day of the last long session, regardless of the new task's own
duration. -/
def spec_schedule_accept (preferred_days : List Int) (_duration : Int) (daily_load : Ledger)
    (last_long_day : Option Int) (day : Int) : Bool :=
  let weekday := day.emod 7
  let matches_preference : Bool := preferred_days.isEmpty || weekday ∈ preferred_days
  let effective_load := ((daily_load day).filter (fun d => d ≥ 15)).length
  let within_one : Bool :=
    match last_long_day with
    | some l => (day - l).natAbs ≤ 1
    | none => false
  matches_preference && decide (effective_load < 2) && !within_one

/-- The claim's day-selection rule (claim C5 wording): first of 21
consecutive days satisfying `spec_schedule_accept`, else the proposed day. -/
def spec_schedule_on_or_after (target_day : Int) (preferred_days : List Int) (duration : Int)
    (daily_load : Ledger) (last_long_day : Option Int) : Int :=
  match findFirstOffset
      (fun k => spec_schedule_accept preferred_days duration daily_load last_long_day
        (target_day + (k : Int))) 0 21 with
  | some k => target_day + (k : Int)
  | none => target_day

/-! ### Claim C6 — time-slot collision resolution -/

/-- The claim's collision rule (claim C6 wording, for comparison with the
code): a free base time is used directly; on collision, probe five
additional candidates 30, 60, 90, 120, 150 minutes past the base time and
take the first free one; only when all five additional candidates are
taken is the base time reused. -/
def spec_find_free_time_slot (base_time : String) (used_times : List String) : String :=
  if base_time ∈ used_times then
    let bm := timeStrToMin base_time
    match findFirstOffset
        (fun o => !(decide (minutes_to_time (bm + ((o : Int) + 1) * 30) ∈ used_times))) 0 5 with
    | some o => minutes_to_time (bm + ((o : Int) + 1) * 30)
    | none => base_time
  else base_time

/-- A minimal schema-valid task, used in the C10 witness. -/
def sampleTask : TaskDraft :=
  { title := "x", intent := "i", estimated_duration_min := 10
    cadence := CadenceVal.str "flex" }

/-- A minimal schema-valid plan, used to instantiate the oracle in the
C10 witness. -/
def sampleGeneratedPlan : ResolutionPlan :=
  { resolution_title := "t"
    why_this_matters := "w"
    duration_weeks := 1
    milestones := [{ week_number := 1, focus_summary := "f" }]
    week_1_tasks := [(sampleTask, none)]
    weeks := [] }

/-- An evaluator that rejects every plan, used in the C10 witness. -/
def rejectAllEvaluator : ResolutionPlan → EvaluationResult :=
  fun _ => { score := 0, passed := false }

end SarthiAI.Decomposer

namespace SarthiAI.WeeklyPlanner

/-! ### `app/services/weekly_planner.py` — rolling-wave planner -/

open SarthiAI.Decomposer (pyOrStr)

/-- Source: `SuggestedTaskPayload`. -/
structure SuggestedTaskPayload where
  title : String
  duration_min : Option Int := none
  suggested_time : Option String := none
  deriving Repr, DecidableEq

/-- Source: `MicroResolutionPayload`. -/
structure MicroResolutionPayload where
  title : String
  why_this : String
  suggested_week_1_tasks : List SuggestedTaskPayload
  deriving Repr, DecidableEq

/-- Source: `_fallback_micro_resolution()`. -/
def fallback_micro_resolution : MicroResolutionPayload :=
  { title := "Reset Week"
    why_this :=
      "Lighten the load, rebuild confidence, and carry momentum into the following week."
    suggested_week_1_tasks :=
      [{ title := "Schedule three 30-min focus blocks", duration_min := some 30,
         suggested_time := some "morning" },
       { title := "One midweek reflection note", duration_min := some 10,
         suggested_time := some "evening" },
       { title := "Weekend reset + planning ritual", duration_min := some 25,
         suggested_time := some "afternoon" }] }

/-- Source: `_ensure_task_bounds(micro)`: pad with fallback tasks up to 3, then
truncate past 5 (the while-loop appends `fallback_tasks[idx]` in order). -/
def ensure_task_bounds (micro : MicroResolutionPayload) : MicroResolutionPayload :=
  let tasks := micro.suggested_week_1_tasks
  let fallback_tasks := fallback_micro_resolution.suggested_week_1_tasks
  let tasks := tasks ++ fallback_tasks.take (3 - tasks.length)
  let tasks := if tasks.length > 5 then tasks.take 5 else tasks
  { title := pyOrStr micro.title "Momentum Week"
    why_this := pyOrStr micro.why_this
      "Keep the cadence gentle while sustaining visible progress."
    suggested_week_1_tasks := tasks }

/-- Outcome of the planner's single LLM interaction: no credential, a
raised/failed call (transport error or schema mismatch), or a validated
payload. -/
inductive WeeklyLLMOutcome where
  | noKey : WeeklyLLMOutcome
  | failure : WeeklyLLMOutcome
  | ok : MicroResolutionPayload → WeeklyLLMOutcome

/-- Source: `_request_plan_from_llm(context_summary)` with the external call
injected: missing key and any exception fall back deterministically; a
validated payload is clamped by `_ensure_task_bounds`. -/
def request_plan_from_llm (outcome : WeeklyLLMOutcome) : MicroResolutionPayload :=
  match outcome with
  | WeeklyLLMOutcome.noKey => fallback_micro_resolution
  | WeeklyLLMOutcome.failure => fallback_micro_resolution
  | WeeklyLLMOutcome.ok micro => ensure_task_bounds micro

end SarthiAI.WeeklyPlanner

namespace SarthiAI.AvailabilityProfile

/-! #### Canonicity of sanitized profiles

`sanitize_availability_profile` only ever emits profiles in a canonical
form; re-sanitizing a canonical profile is the identity.  Together these
give idempotence. -/


lemma dayNormalization_mem_codes {k : String} {v : String}
    (h : dayNormalization k = some v) : v ∈ dayCodes := by
  unfold dayNormalization at h
  split_ifs at h <;> simp_all [dayCodes]

lemma normalizeWorkDaysAux_codes (entries : List PyVal) (acc : List String)
    (hacc : ∀ d ∈ acc, d ∈ dayCodes) :
    ∀ d ∈ normalizeWorkDaysAux acc entries, d ∈ dayCodes := by
  induction entries generalizing acc with
  | nil => simpa [normalizeWorkDaysAux] using hacc
  | cons e rest ih =>
    cases e with
    | vstr s =>
      simp only [normalizeWorkDaysAux]
      cases hdn : dayNormalization (pyLower (pyStrip s)) with
      | none => exact ih acc hacc
      | some v =>
        by_cases hv : v ∈ acc
        · simp only [hv, if_true]
          exact ih acc hacc
        · simp only [hv, if_false]
          refine ih (acc ++ [v]) ?_
          intro d hd
          rcases List.mem_append.mp hd with h' | h'
          · exact hacc d h'
          · simp only [List.mem_singleton] at h'
            exact h' ▸ dayNormalization_mem_codes hdn
    | vnone => exact ih acc hacc
    | vbool b => exact ih acc hacc
    | vint n => exact ih acc hacc
    | vlist l => exact ih acc hacc
    | vdict d => exact ih acc hacc

lemma normalizeWorkDaysAux_nodup (entries : List PyVal) (acc : List String)
    (hacc : acc.Nodup) : (normalizeWorkDaysAux acc entries).Nodup := by
  induction entries generalizing acc with
  | nil => simpa [normalizeWorkDaysAux] using hacc
  | cons e rest ih =>
    cases e with
    | vstr s =>
      simp only [normalizeWorkDaysAux]
      cases hdn : dayNormalization (pyLower (pyStrip s)) with
      | none => exact ih acc hacc
      | some v =>
        by_cases hv : v ∈ acc
        · simp only [hv, if_true]
          exact ih acc hacc
        · simp only [hv, if_false]
          refine ih (acc ++ [v]) ?_
          simp [List.nodup_append, hacc, List.disjoint_singleton, hv]
    | vnone => exact ih acc hacc
    | vbool b => exact ih acc hacc
    | vint n => exact ih acc hacc
    | vlist l => exact ih acc hacc
    | vdict d => exact ih acc hacc

lemma normalizeWorkDays_default_facts :
    DEFAULT_AVAILABILITY_PROFILE.work_days ≠ [] ∧
    DEFAULT_AVAILABILITY_PROFILE.work_days.Nodup ∧
    ∀ d ∈ DEFAULT_AVAILABILITY_PROFILE.work_days, d ∈ dayCodes :=
  ⟨by decide, by decide, by decide⟩

lemma normalizeWorkDays_spec {v : PyVal} {wd : List String}
    (h : normalizeWorkDays v = some wd) :
    wd ≠ [] ∧ wd.Nodup ∧ ∀ d ∈ wd, d ∈ dayCodes := by
  have hauxgoal : ∀ entries : List PyVal,
      (if normalizeWorkDaysAux [] entries = [] then
        some DEFAULT_AVAILABILITY_PROFILE.work_days
       else some (normalizeWorkDaysAux [] entries)) = some wd →
      wd ≠ [] ∧ wd.Nodup ∧ ∀ d ∈ wd, d ∈ dayCodes := by
    intro entries h'
    by_cases he : normalizeWorkDaysAux [] entries = []
    · rw [if_pos he] at h'
      obtain rfl : DEFAULT_AVAILABILITY_PROFILE.work_days = wd := by simpa using h'
      exact normalizeWorkDays_default_facts
    · rw [if_neg he] at h'
      obtain rfl : normalizeWorkDaysAux [] entries = wd := by simpa using h'
      exact ⟨he, normalizeWorkDaysAux_nodup entries [] (by simp),
        normalizeWorkDaysAux_codes entries [] (by simp)⟩
  unfold normalizeWorkDays at h
  by_cases ht : v.truthy = true
  · rw [if_neg (not_not_intro ht)] at h
    cases v with
    | vlist l => exact hauxgoal l h
    | vstr s => exact hauxgoal (s.data.map (fun c => PyVal.vstr ⟨[c]⟩)) h
    | vdict kvs => exact hauxgoal (kvs.map (fun kv => PyVal.vstr kv.1)) h
    | vnone => cases h
    | vbool b => cases h
    | vint n => cases h
  · rw [if_pos ht] at h
    obtain rfl : DEFAULT_AVAILABILITY_PROFILE.work_days = wd := by simpa using h
    exact normalizeWorkDays_default_facts

lemma normalizeTimeString_shape {v : PyVal} {t : String}
    (h : normalizeTimeString v = some t) :
    ∃ hh mm, hh ≤ 23 ∧ mm ≤ 59 ∧ t = fmtTime hh mm := by
  unfold normalizeTimeString at h
  cases v with
  | vstr s =>
    simp only at h
    split at h
    · split at h
      · rename_i hh mm _ _
        simp only [Option.some.injEq] at h
        refine ⟨(max 0 (min 23 hh)).toNat, (max 0 (min 59 mm)).toNat, ?_, ?_, h.symm⟩
        · omega
        · omega
      · exact absurd h (by simp)
    · exact absurd h (by simp)
  | vnone => exact absurd h (by simp)
  | vbool b => exact absurd h (by simp)
  | vint n => exact absurd h (by simp)
  | vlist l => exact absurd h (by simp)
  | vdict d => exact absurd h (by simp)

lemma fmtTime_roundtrip :
    ∀ hh : Fin 24, ∀ mm : Fin 60,
      normalizeTimeString (PyVal.vstr (fmtTime hh.1 mm.1)) = some (fmtTime hh.1 mm.1) := by
  decide

lemma dayCode_self_normalizes :
    ∀ d ∈ dayCodes, dayNormalization (pyLower (pyStrip d)) = some d := by
  decide

lemma normalizeWorkDaysAux_id (ds : List String) (acc : List String)
    (hd : ∀ d ∈ ds, dayNormalization (pyLower (pyStrip d)) = some d)
    (hnd : (acc ++ ds).Nodup) :
    normalizeWorkDaysAux acc (ds.map PyVal.vstr) = acc ++ ds := by
  induction ds generalizing acc with
  | nil => simp [normalizeWorkDaysAux]
  | cons d rest ih =>
    simp only [List.map_cons, normalizeWorkDaysAux]
    rw [hd d (by simp)]
    have hdacc : d ∉ acc := by
      intro hmem
      rcases (List.nodup_append.mp hnd) with ⟨-, -, hdisj⟩
      exact hdisj hmem (by simp)
    simp only [hdacc, if_false]
    have hnd' : ((acc ++ [d]) ++ rest).Nodup := by
      rw [List.append_assoc]
      simpa using hnd
    rw [ih (acc ++ [d]) (fun x hx => hd x (by simp [hx])) hnd']
    simp

lemma sanWorkStart0_shape (kvs : List (String × PyVal)) :
    ∃ hh mm, hh ≤ 23 ∧ mm ≤ 59 ∧ sanWorkStart0 kvs = fmtTime hh mm := by
  unfold sanWorkStart0
  cases hn : normalizeTimeString (PyVal.get kvs "work_start") with
  | some t => exact normalizeTimeString_shape hn
  | none => exact ⟨9, 0, by omega, by omega, by decide⟩

lemma sanWorkEnd0_shape (kvs : List (String × PyVal)) :
    ∃ hh mm, hh ≤ 23 ∧ mm ≤ 59 ∧ sanWorkEnd0 kvs = fmtTime hh mm := by
  unfold sanWorkEnd0
  cases hn : normalizeTimeString (PyVal.get kvs "work_end") with
  | some t => exact normalizeTimeString_shape hn
  | none => exact ⟨18, 0, by omega, by omega, by decide⟩

lemma sanTimes_canon (kvs : List (String × PyVal)) :
    (∃ hh mm, hh ≤ 23 ∧ mm ≤ 59 ∧ (sanTimes kvs).1 = fmtTime hh mm) ∧
    (∃ hh mm, hh ≤ 23 ∧ mm ≤ 59 ∧ (sanTimes kvs).2 = fmtTime hh mm) ∧
    timeStrToMinutes (sanTimes kvs).1 < timeStrToMinutes (sanTimes kvs).2 := by
  unfold sanTimes
  split_ifs with hc
  · exact ⟨⟨9, 0, by omega, by omega, by decide⟩, ⟨18, 0, by omega, by omega, by decide⟩,
      by decide⟩
  · refine ⟨?_, ?_, ?_⟩ <;> dsimp only
    · exact sanWorkStart0_shape kvs
    · exact sanWorkEnd0_shape kvs
    · omega

lemma sanPeak_mem (kvs : List (String × PyVal)) :
    sanPeak kvs = "morning" ∨ sanPeak kvs = "evening" := by
  simp only [sanPeak]
  split_ifs with hc
  · exact hc
  · exact Or.inl rfl

lemma normalizePersonalSlots_mem (v : PyVal) :
    ((normalizePersonalSlots v).1 = "morning" ∨ (normalizePersonalSlots v).1 = "afternoon" ∨
      (normalizePersonalSlots v).1 = "evening") ∧
    ((normalizePersonalSlots v).2.1 = "morning" ∨ (normalizePersonalSlots v).2.1 = "afternoon" ∨
      (normalizePersonalSlots v).2.1 = "evening") ∧
    ((normalizePersonalSlots v).2.2 = "weekend" ∨ (normalizePersonalSlots v).2.2 = "evenings") := by
  cases v with
  | vdict kvs =>
    simp only [normalizePersonalSlots]
    refine ⟨?_, ?_, ?_⟩ <;> (split_ifs <;> tauto)
  | vnone => exact ⟨Or.inl rfl, Or.inr (Or.inr rfl), Or.inl rfl⟩
  | vbool b => exact ⟨Or.inl rfl, Or.inr (Or.inr rfl), Or.inl rfl⟩
  | vint n => exact ⟨Or.inl rfl, Or.inr (Or.inr rfl), Or.inl rfl⟩
  | vstr s => exact ⟨Or.inl rfl, Or.inr (Or.inr rfl), Or.inl rfl⟩
  | vlist l => exact ⟨Or.inl rfl, Or.inr (Or.inr rfl), Or.inl rfl⟩

lemma canonical_default : Canonical DEFAULT_AVAILABILITY_PROFILE :=
  ⟨by decide, by decide, by decide, ⟨9, 0, by omega, by omega, by decide⟩,
    ⟨18, 0, by omega, by omega, by decide⟩, by decide, by decide, by decide, by decide,
    by decide⟩

lemma sanitize_canonical {x : PyVal} {p : Profile}
    (h : sanitize_availability_profile x = some p) : Canonical p := by
  cases x with
  | vdict kvs =>
    unfold sanitize_availability_profile at h
    dsimp only at h
    cases hwd : normalizeWorkDays (PyVal.get kvs "work_days") with
    | none => rw [hwd] at h; cases h
    | some wd =>
      rw [hwd] at h
      simp only [Option.some.injEq] at h
      subst h
      obtain ⟨hne, hnodup, hcodes⟩ := normalizeWorkDays_spec hwd
      obtain ⟨hs1, hs2, hlt⟩ := sanTimes_canon kvs
      obtain ⟨hf, hl, ha⟩ := normalizePersonalSlots_mem (PyVal.get kvs "personal_slots")
      exact ⟨hne, hnodup, hcodes, hs1, hs2, hlt, sanPeak_mem kvs, hf, hl, ha⟩
  | vnone =>
    simp only [sanitize_availability_profile, Option.some.injEq] at h
    exact h ▸ canonical_default
  | vbool b =>
    simp only [sanitize_availability_profile, Option.some.injEq] at h
    exact h ▸ canonical_default
  | vint n =>
    simp only [sanitize_availability_profile, Option.some.injEq] at h
    exact h ▸ canonical_default
  | vstr s =>
    simp only [sanitize_availability_profile, Option.some.injEq] at h
    exact h ▸ canonical_default
  | vlist l =>
    simp only [sanitize_availability_profile, Option.some.injEq] at h
    exact h ▸ canonical_default

lemma get_cons_hit (k : String) (v : PyVal) (rest : List (String × PyVal)) :
    PyVal.get ((k, v) :: rest) k = v := by
  simp [PyVal.get, List.find?]

lemma get_cons_miss (k k' : String) (v : PyVal) (rest : List (String × PyVal))
    (h : k' ≠ k) : PyVal.get ((k', v) :: rest) k = PyVal.get rest k := by
  simp [PyVal.get, List.find?, h]

lemma profKvs_get_work_days (wd : List String) (ws we pe : String) (wm : Bool)
    (sf sl sa : String) :
    PyVal.get (profKvs wd ws we pe wm sf sl sa) "work_days" =
      PyVal.vlist (wd.map PyVal.vstr) := rfl

lemma profKvs_get_work_start (wd : List String) (ws we pe : String) (wm : Bool)
    (sf sl sa : String) :
    PyVal.get (profKvs wd ws we pe wm sf sl sa) "work_start" = PyVal.vstr ws := rfl

lemma profKvs_get_work_end (wd : List String) (ws we pe : String) (wm : Bool)
    (sf sl sa : String) :
    PyVal.get (profKvs wd ws we pe wm sf sl sa) "work_end" = PyVal.vstr we := rfl

lemma profKvs_get_peak (wd : List String) (ws we pe : String) (wm : Bool)
    (sf sl sa : String) :
    PyVal.get (profKvs wd ws we pe wm sf sl sa) "peak_energy" = PyVal.vstr pe := rfl

lemma profKvs_get_slots (wd : List String) (ws we pe : String) (wm : Bool)
    (sf sl sa : String) :
    PyVal.get (profKvs wd ws we pe wm sf sl sa) "personal_slots" =
      PyVal.vdict (slotKvs sf sl sa) := rfl

lemma sanitize_roundtrip {p : Profile} (hc : Canonical p) :
    sanitize_availability_profile p.toPyVal = some p := by
  obtain ⟨wd, ws, we, pe, wm, sf, sl, sa⟩ := p
  obtain ⟨hne, hnodup, hcodes, hws, hwe, hlt, hpe, hsf, hsl, hsa⟩ := hc
  simp only at hne hnodup hcodes hws hwe hlt hpe hsf hsl hsa
  have hnw : normalizeWorkDays (PyVal.vlist (wd.map PyVal.vstr)) = some wd := by
    unfold normalizeWorkDays
    have htr : (PyVal.vlist (wd.map PyVal.vstr)).truthy = true := by
      cases wd with
      | nil => exact absurd rfl hne
      | cons d rest => simp [PyVal.truthy]
    rw [if_neg (not_not_intro htr)]
    show (if normalizeWorkDaysAux [] (wd.map PyVal.vstr) = [] then
        some DEFAULT_AVAILABILITY_PROFILE.work_days
      else some (normalizeWorkDaysAux [] (wd.map PyVal.vstr))) = some wd
    rw [normalizeWorkDaysAux_id wd []
      (fun d hd => dayCode_self_normalizes d (hcodes d hd)) (by simpa using hnodup)]
    simp [hne]
  have hws_rt : normalizeTimeString (PyVal.vstr ws) = some ws := by
    obtain ⟨hh, mm, hb1, hb2, heq⟩ := hws
    rw [heq]
    exact fmtTime_roundtrip ⟨hh, by omega⟩ ⟨mm, by omega⟩
  have hwe_rt : normalizeTimeString (PyVal.vstr we) = some we := by
    obtain ⟨hh, mm, hb1, hb2, heq⟩ := hwe
    rw [heq]
    exact fmtTime_roundtrip ⟨hh, by omega⟩ ⟨mm, by omega⟩
  have hT : sanTimes (profKvs wd ws we pe wm sf sl sa) = (ws, we) := by
    unfold sanTimes sanWorkStart0 sanWorkEnd0
    rw [profKvs_get_work_start, profKvs_get_work_end, hws_rt, hwe_rt]
    dsimp only
    rw [if_neg (by omega)]
  have hpk : sanPeak (profKvs wd ws we pe wm sf sl sa) = pe := by
    unfold sanPeak
    rw [profKvs_get_peak]
    rcases hpe with h | h <;> subst h <;> decide
  have hslots : normalizePersonalSlots (PyVal.vdict (slotKvs sf sl sa)) = (sf, sl, sa) := by
    unfold normalizePersonalSlots
    dsimp only
    rw [show PyVal.get (slotKvs sf sl sa) "fitness" = PyVal.vstr sf from rfl,
      show PyVal.get (slotKvs sf sl sa) "learning" = PyVal.vstr sl from rfl,
      show PyVal.get (slotKvs sf sl sa) "admin" = PyVal.vstr sa from rfl]
    have e1 : pyLower (PyVal.pyStr (PyVal.vstr sf)) = sf := by
      rcases hsf with h | h | h <;> subst h <;> decide
    have e2 : pyLower (PyVal.pyStr (PyVal.vstr sl)) = sl := by
      rcases hsl with h | h | h <;> subst h <;> decide
    have e3 : pyLower (PyVal.pyStr (PyVal.vstr sa)) = sa := by
      rcases hsa with h | h <;> subst h <;> decide
    simp only [e1, e2, e3]
    rw [if_pos hsf, if_pos hsl, if_pos hsa]
  show sanitize_availability_profile
    (PyVal.vdict (profKvs wd ws we pe wm sf sl sa)) = _
  unfold sanitize_availability_profile
  dsimp only
  rw [profKvs_get_work_days, hnw]
  dsimp only
  rw [profKvs_get_slots, hT, hpk, hslots]
  rfl


end SarthiAI.AvailabilityProfile

namespace SarthiAI.Decomposer

/-! ### Scan-loop and sorting infrastructure lemmas -/

lemma findFirstOffset_none_iff (ok : Nat → Bool) :
    ∀ (n start : Nat), findFirstOffset ok start n = none ↔
      ∀ k, start ≤ k → k < start + n → ok k = false := by
  intro n
  induction n with
  | zero =>
    intro start
    constructor
    · intro _ k hk1 hk2
      omega
    · intro _
      rfl
  | succ n ih =>
    intro start
    by_cases h : ok start = true
    · simp only [findFirstOffset, h, if_true]
      constructor
      · intro hc
        cases hc
      · intro hall
        have hs := hall start (Nat.le_refl _) (by omega)
        rw [h] at hs
        cases hs
    · have h' : ok start = false := by simpa using h
      simp only [findFirstOffset, h', Bool.false_eq_true, if_false]
      rw [ih (start + 1)]
      constructor
      · intro hall k hk1 hk2
        rcases Nat.eq_or_lt_of_le hk1 with rfl | hlt
        · exact h'
        · exact hall k hlt (by omega)
      · intro hall k hk1 hk2
        exact hall k (by omega) (by omega)

lemma findFirstOffset_some (ok : Nat → Bool) :
    ∀ (n start k : Nat), findFirstOffset ok start n = some k →
      start ≤ k ∧ k < start + n ∧ ok k = true ∧
        ∀ j, start ≤ j → j < k → ok j = false := by
  intro n
  induction n with
  | zero =>
    intro start k h
    cases h
  | succ n ih =>
    intro start k h
    by_cases hs : ok start = true
    · simp only [findFirstOffset, hs, if_true, Option.some.injEq] at h
      subst h
      exact ⟨Nat.le_refl _, by omega, hs, fun j h1 h2 => absurd h2 (by omega)⟩
    · have hs' : ok start = false := by simpa using hs
      simp only [findFirstOffset, hs', Bool.false_eq_true, if_false] at h
      obtain ⟨h1, h2, h3, h4⟩ := ih (start + 1) k h
      refine ⟨by omega, by omega, h3, ?_⟩
      intro j hj1 hj2
      rcases Nat.eq_or_lt_of_le hj1 with rfl | hlt
      · exact hs'
      · exact h4 j hlt hj2

lemma insertSortedInt_map_add (c x : Int) (l : List Int) :
    insertSortedInt (c + x) (l.map (fun y => c + y)) =
      (insertSortedInt x l).map (fun y => c + y) := by
  induction l with
  | nil => rfl
  | cons y ys ih =>
    simp only [List.map_cons, insertSortedInt]
    by_cases h : x ≤ y
    · rw [if_pos (by omega), if_pos h]
      simp
    · rw [if_neg (by omega), if_neg h]
      simp [ih]

lemma sortInts_map_add (c : Int) (l : List Int) :
    sortInts (l.map (fun y => c + y)) = (sortInts l).map (fun y => c + y) := by
  induction l with
  | nil => rfl
  | cons y ys ih =>
    simp only [List.map_cons, sortInts, List.foldr_cons] at *
    rw [ih, insertSortedInt_map_add]

lemma pyEraseDups_map_add (c : Int) (l : List Int) :
    pyEraseDups (l.map (fun y => c + y)) = (pyEraseDups l).map (fun y => c + y) := by
  induction l with
  | nil => rfl
  | cons y ys ih =>
    simp only [List.map_cons, pyEraseDups]
    have hmem : ((c + y ∈ ys.map (fun z => c + z)) ↔ y ∈ ys) := by
      simp [List.mem_map]
    by_cases h : y ∈ ys
    · rw [if_pos (hmem.mpr h), if_pos h]
      exact ih
    · rw [if_neg (fun hc => h (hmem.mp hc)), if_neg h]
      simp [ih]

lemma sortedDedup_map_add (c : Int) (l : List Int) :
    sortedDedup (l.map (fun y => c + y)) = (sortedDedup l).map (fun y => c + y) := by
  unfold sortedDedup
  rw [pyEraseDups_map_add, sortInts_map_add]

end SarthiAI.Decomposer



namespace SarthiAI.Decomposer

/-! ### Claim C4 — `XPerWeek` cadence expansion -/


lemma expand_xperweek_eval (ws c : Int) (rd : Bool) (hint : Option String) (hc : c ≠ 0) :
    expand_target_days { type := "x_per_week", count := some c } ws rd hint =
      sortedDedup (evenly_spaced_days c ws) := by
  have h1 : pyOrOptInt (some c) none = some c := by simp [pyOrOptInt, hc]
  cases rd <;>
  · unfold expand_target_days
    dsimp only
    rw [h1]
    dsimp only
    rw [if_pos hc]
    rfl

lemma maxmin_clamp_low {c : Int} (h : c ≤ 1) : max 1 (min c 7) = 1 := by
  rw [min_eq_left (by omega), max_eq_left h]

lemma maxmin_clamp_high {c : Int} (h : 7 ≤ c) : max 1 (min c 7) = 7 := by
  rw [min_eq_right h]
  decide

lemma expand_xperweek_offsets (ws c : Int) (rd : Bool) (hint : Option String) :
    ∃ offs : List Int,
      expand_target_days { type := "x_per_week", count := some c } ws rd hint =
        offs.map (fun y => ws + y) ∧
      spec_xPerWeekDays ws c = offs.map (fun y => ws + y) ∧
      offs.Nodup ∧ (∀ o ∈ offs, 0 ≤ o ∧ o ≤ 6) ∧ (offs.length : Int) = max 1 (min c 7) := by
  by_cases h0 : c = 0
  · subst h0
    refine ⟨[0], ?_, rfl, by decide, by decide, by decide⟩
    have h : expand_target_days { type := "x_per_week", count := some 0 } ws rd hint =
        [ws] := by cases rd <;> rfl
    rw [h]
    simp
  by_cases hneg : c ≤ -1
  · refine ⟨[0], ?_, ?_, by decide, by decide,
      by rw [maxmin_clamp_low (by omega)]; decide⟩
    · rw [expand_xperweek_eval ws c rd hint h0]
      have h : evenly_spaced_days c ws = [ws] := by
        unfold evenly_spaced_days
        rw [if_pos (by omega : c ≤ 1)]
      rw [h]
      simp [sortedDedup, pyEraseDups, sortInts, insertSortedInt]
    · unfold spec_xPerWeekDays
      rw [maxmin_clamp_low (by omega)]
      rfl
  by_cases hbig : 8 ≤ c
  · refine ⟨[0, 1, 2, 3, 4, 5, 6], ?_, ?_, by decide, by decide,
      by rw [maxmin_clamp_high (by omega)]; decide⟩
    · rw [expand_xperweek_eval ws c rd hint h0]
      have h : evenly_spaced_days c ws =
          [0, 1, 2, 3, 4, 5, 6].map (fun y => ws + y) := by
        unfold evenly_spaced_days
        rw [if_neg (by omega), maxmin_clamp_high (by omega)]
        rfl
      rw [h, sortedDedup_map_add,
        show sortedDedup [0, 1, 2, 3, 4, 5, 6] = [0, 1, 2, 3, 4, 5, 6] from by decide]
    · unfold spec_xPerWeekDays
      rw [maxmin_clamp_high (by omega)]
      rfl
  have h1 : 1 ≤ c := by omega
  have h7 : c ≤ 7 := by omega
  interval_cases c
  · refine ⟨[0], ?_, rfl, by decide, by decide, by decide⟩
    have h : expand_target_days { type := "x_per_week", count := some 1 } ws rd hint =
        [ws] := by cases rd <;> rfl
    rw [h]
    simp
  · refine ⟨[0, 4], ?_, rfl, by decide, by decide, by decide⟩
    have h : expand_target_days { type := "x_per_week", count := some 2 } ws rd hint =
        sortedDedup ([0, 4].map (fun y => ws + y)) := by cases rd <;> rfl
    rw [h, sortedDedup_map_add, show sortedDedup [0, 4] = [0, 4] from by decide]
  · refine ⟨[0, 2, 5], ?_, rfl, by decide, by decide, by decide⟩
    have h : expand_target_days { type := "x_per_week", count := some 3 } ws rd hint =
        sortedDedup ([0, 2, 5].map (fun y => ws + y)) := by cases rd <;> rfl
    rw [h, sortedDedup_map_add, show sortedDedup [0, 2, 5] = [0, 2, 5] from by decide]
  · refine ⟨[0, 2, 4, 5], ?_, rfl, by decide, by decide, by decide⟩
    have h : expand_target_days { type := "x_per_week", count := some 4 } ws rd hint =
        sortedDedup ([0, 2, 4, 5].map (fun y => ws + y)) := by cases rd <;> rfl
    rw [h, sortedDedup_map_add, show sortedDedup [0, 2, 4, 5] = [0, 2, 4, 5] from by decide]
  · refine ⟨[0, 1, 3, 4, 6], ?_, rfl, by decide, by decide, by decide⟩
    have h : expand_target_days { type := "x_per_week", count := some 5 } ws rd hint =
        sortedDedup ([0, 1, 3, 4, 6].map (fun y => ws + y)) := by cases rd <;> rfl
    rw [h, sortedDedup_map_add,
      show sortedDedup [0, 1, 3, 4, 6] = [0, 1, 3, 4, 6] from by decide]
  · refine ⟨[0, 1, 2, 4, 5, 6], ?_, rfl, by decide, by decide, by decide⟩
    have h : expand_target_days { type := "x_per_week", count := some 6 } ws rd hint =
        sortedDedup ([0, 1, 2, 4, 5, 6].map (fun y => ws + y)) := by cases rd <;> rfl
    rw [h, sortedDedup_map_add,
      show sortedDedup [0, 1, 2, 4, 5, 6] = [0, 1, 2, 4, 5, 6] from by decide]
  · refine ⟨[0, 1, 2, 3, 4, 5, 6], ?_, rfl, by decide, by decide, by decide⟩
    have h : expand_target_days { type := "x_per_week", count := some 7 } ws rd hint =
        sortedDedup ([0, 1, 2, 3, 4, 5, 6].map (fun y => ws + y)) := by cases rd <;> rfl
    rw [h, sortedDedup_map_add,
      show sortedDedup [0, 1, 2, 3, 4, 5, 6] = [0, 1, 2, 3, 4, 5, 6] from by decide]

lemma clamp17_facts (c : Int) : 1 ≤ max 1 (min c 7) ∧ max 1 (min c 7) ≤ 7 ∧
    min c 7 ≤ max 1 (min c 7) ∧ (1 ≤ c → c ≤ 7 → max 1 (min c 7) = c) := by
  rcases le_total c 7 with h7 | h7
  · rw [min_eq_left h7]
    rcases le_total c 1 with h1 | h1
    · rw [max_eq_left h1]
      exact ⟨le_refl _, by omega, h1, fun hc1 _ => by omega⟩
    · rw [max_eq_right h1]
      exact ⟨h1, h7, le_refl _, fun _ _ => rfl⟩
  · rw [min_eq_right h7, max_eq_right (by omega)]
    exact ⟨by omega, le_refl _, le_refl _, fun _ hc7 => by omega⟩



end SarthiAI.Decomposer

namespace SarthiAI

open SarthiAI.Decomposer SarthiAI.WeeklyPlanner SarthiAI.EffortBand
  SarthiAI.AvailabilityProfile

/-! ## Claim theorems -/

/-- C1: the claim says a call with no LLM credential skips to the fallback
path and returns a schema-valid plan with `fallback_used = true`,
`repair_used = false`, never surfacing a hard error.  In fact the no-key
branch's `_finalize_plan` call omits the required `regenerate_used`
argument, so every such call raises `TypeError` to the caller, for every
input and every evaluator. -/
theorem claim_C1_no_key_raises_type_error (today : Int) (user_input : String)
    (duration_weeks : Int) (resolution_type : Option String) (user_context : Option UserContext)
    (effort_band band_rationale : Option String) (oracle : LLMOracle)
    (evaluator : ResolutionPlan → EvaluationResult) :
    decompose_resolution_with_llm today user_input duration_weeks resolution_type user_context
      effort_band band_rationale false oracle evaluator = Except.error PyErr.typeError := rfl

/-- C2: the claim says every failure of the initial LLM generation call is
caught at the call site and routed into the repair/regenerate/fallback
ladder.  In fact `_generate_plan_via_llm` is invoked without a
try/except, so whenever the initial call raises (transport error,
timeout, malformed JSON, schema-validation failure), the exception
propagates to `decompose_resolution_with_llm`'s caller. -/
theorem claim_C2_generation_error_propagates (today : Int) (user_input : String)
    (duration_weeks : Int) (resolution_type : Option String) (user_context : Option UserContext)
    (effort_band band_rationale : Option String) (repair regen : Option ResolutionPlan)
    (evaluator : ResolutionPlan → EvaluationResult) :
    decompose_resolution_with_llm today user_input duration_weeks resolution_type user_context
      effort_band band_rationale true
      { gen := Except.error (), repair := repair, regen := regen } evaluator =
      Except.error PyErr.raised := rfl

/-- C3 counterexample: the claim quantifies over every goal text
containing an intense keyword, but a text that also contains a
casual/light keyword returns `low` (step 1 short-circuits), and a zero
`duration_weeks` (≤ 4) yields `high` because `duration_weeks or 8`
replaces the falsy 0 with 8. -/
theorem claim_C3_counterexample :
    strContains (pyLower "a casual intense sprint") "intense" = true ∧
    (infer_effort_band "a casual intense sprint" none (some 3)).1 = "low" ∧
    (infer_effort_band "intense" none (some 0)).1 = "high" :=
  ⟨by decide, by decide, by decide⟩

/-- C3 (amended): for every goal text containing an intense keyword and no
casual/light keyword, and every nonzero `duration_weeks`, the intense
override takes precedence over the type baseline: band `intense` when
`duration_weeks ≤ 4`, else `high`. -/
theorem claim_C3_intense_override (user_input : String) (resolution_type : Option String)
    (d : Int)
    (hint : INTENSE_KEYWORDS.any (fun k => strContains (pyLower user_input) k) = true)
    (hlow : LOW_KEYWORDS.any (fun k => strContains (pyLower user_input) k) = false)
    (hd : d ≠ 0) :
    (infer_effort_band user_input resolution_type (some d)).1 =
      if d ≤ 4 then "intense" else "high" := by
  unfold infer_effort_band
  dsimp only
  rw [if_neg (by rw [hlow]; exact Bool.false_ne_true), if_pos hd, if_pos (by rw [hint])]
  split_ifs with h <;> rfl

/-- C3 witness. -/
theorem claim_C3_intense_override_witness :
    INTENSE_KEYWORDS.any (fun k => strContains (pyLower "intense sprint") k) = true ∧
    LOW_KEYWORDS.any (fun k => strContains (pyLower "intense sprint") k) = false ∧
    (3 : Int) ≠ 0 ∧
    (infer_effort_band "intense sprint" none (some 3)).1 =
      if (3 : Int) ≤ 4 then "intense" else "high" :=
  ⟨by decide, by decide, by decide,
    claim_C3_intense_override "intense sprint" none 3 (by decide) (by decide) (by decide)⟩

/-- C4: expanding an `XPerWeek(count)` cadence equals the spec's formula
(count clamped to `[1,7]`, i-th occurrence at offset `round(i × 7/count)`
clamped to `[0,6]`), all dates fall in the 7-day window starting at
`week_start`, the dates are distinct, there are at most 7 and at least
`min(count, 7)` of them, and for `count ∈ [1,7]` exactly `count`. -/
theorem claim_C4_xPerWeek_expansion (ws c : Int) (rd : Bool) (hint : Option String) :
    expand_target_days { type := "x_per_week", count := some c } ws rd hint =
      spec_xPerWeekDays ws c ∧
    (∀ d ∈ spec_xPerWeekDays ws c, ws ≤ d ∧ d ≤ ws + 6) ∧
    (spec_xPerWeekDays ws c).Nodup ∧
    (spec_xPerWeekDays ws c).length ≤ 7 ∧
    min c 7 ≤ ((spec_xPerWeekDays ws c).length : Int) ∧
    (1 ≤ c → c ≤ 7 → ((spec_xPerWeekDays ws c).length : Int) = c) := by
  obtain ⟨offs, he, hs, hnd, hb, hlen⟩ := expand_xperweek_offsets ws c rd hint
  obtain ⟨f1, f2, f3, f4⟩ := clamp17_facts c
  have hmap : (spec_xPerWeekDays ws c).length = offs.length := by
    rw [hs, List.length_map]
  refine ⟨he.trans hs.symm, ?_, ?_, ?_, ?_, ?_⟩
  · intro d hd
    rw [hs] at hd
    obtain ⟨o, ho, rfl⟩ := List.mem_map.mp hd
    have := hb o ho
    omega
  · rw [hs]
    exact List.Nodup.map (fun a b hab => by omega) hnd
  · rw [hmap]
    omega
  · rw [hmap]
    omega
  · intro hc1 hc7
    rw [hmap]
    have := f4 hc1 hc7
    omega

/-- C4 witness. -/
theorem claim_C4_xPerWeek_expansion_witness :
    expand_target_days { type := "x_per_week", count := some 3 } 0 false none =
      spec_xPerWeekDays 0 3 ∧
    (1 : Int) ≤ 3 ∧ (3 : Int) ≤ 7 ∧ ((spec_xPerWeekDays 0 3).length : Int) = 3 :=
  ⟨(claim_C4_xPerWeek_expansion 0 3 false none).1, by decide, by decide,
    (claim_C4_xPerWeek_expansion 0 3 false none).2.2.2.2.2 (by decide) (by decide)⟩

/-- C5 counterexample: with an empty ledger, no preference, a 30-minute
task, and the last long session on the proposed day itself, the claim's
rule (condition (c) applies to every task) selects day 2, but the code
accepts the proposed day 0 because its long-session buffer only applies
when the new task itself exceeds 60 minutes. -/
theorem claim_C5_counterexample :
    (schedule_on_or_after 0 [] 30 (fun _ => []) (some 0)).1 = 0 ∧
    spec_schedule_on_or_after 0 [] 30 (fun _ => []) (some 0) = 2 ∧
    spec_schedule_accept [] 30 (fun _ => []) (some 0) 0 = false := ⟨rfl, rfl, rfl⟩

/-- C5 (amended): `schedule_on_or_after` returns the first of at most 21
consecutive days from the proposed day that matches a user weekday
preference when any is given, has fewer than 2 already-placed tasks of
duration ≥ 15 minutes, and — only when the task itself is long (> 60 min)
and a last long session exists — lies at least two days after that
session; if no day qualifies it returns the proposed day; the returned
day's ledger entry records the task's duration and no other day's entry
changes. -/
theorem claim_C5_schedule_on_or_after (target : Int) (pref : List Int) (dur : Int)
    (led : Ledger) (ll : Option Int) :
    ((∃ k : Nat, k < 21 ∧
        schedule_accept pref dur led ll (target + (k : Int)) = true ∧
        (∀ j : Nat, j < k → schedule_accept pref dur led ll (target + (j : Int)) = false) ∧
        (schedule_on_or_after target pref dur led ll).1 = target + (k : Int)) ∨
      ((∀ k : Nat, k < 21 → schedule_accept pref dur led ll (target + (k : Int)) = false) ∧
        (schedule_on_or_after target pref dur led ll).1 = target)) ∧
    (schedule_on_or_after target pref dur led ll).2
        (schedule_on_or_after target pref dur led ll).1 =
      led (schedule_on_or_after target pref dur led ll).1 ++ [dur] ∧
    (∀ d, d ≠ (schedule_on_or_after target pref dur led ll).1 →
      (schedule_on_or_after target pref dur led ll).2 d = led d) := by
  unfold schedule_on_or_after
  cases hf : findFirstOffset
      (fun k => schedule_accept pref dur led ll (target + (k : Int))) 0 21 with
  | none =>
    have hall := (findFirstOffset_none_iff _ 21 0).mp hf
    refine ⟨Or.inr ⟨fun k hk => by simpa using hall k (by omega) (by omega), rfl⟩, ?_, ?_⟩
    · simp [ledgerAppend]
    · intro d hd
      simp [ledgerAppend, hd]
  | some k =>
    obtain ⟨h1, h2, h3, h4⟩ := findFirstOffset_some _ 21 0 k hf
    refine ⟨Or.inl ⟨k, by omega, h3, fun j hj => h4 j (by omega) hj, rfl⟩, ?_, ?_⟩
    · simp [ledgerAppend]
    · intro d hd
      simp [ledgerAppend, hd]

/-- C5 witness. -/
theorem claim_C5_schedule_on_or_after_witness :
    (schedule_on_or_after 0 [] 30 (fun _ => []) none).2
        (schedule_on_or_after 0 [] 30 (fun _ => []) none).1 =
      (fun _ => ([] : List Int)) (schedule_on_or_after 0 [] 30 (fun _ => []) none).1 ++ [30] :=
  (claim_C5_schedule_on_or_after 0 [] 30 (fun _ => []) none).2.1

/-- C6 counterexample: when the base time and all four 30-minute
increments past it are taken but the fifth increment is free, the claim's
rule (five additional candidates) returns `10:00`, while the code probes
only the base time plus four increments and re-uses the base time. -/
theorem claim_C6_counterexample :
    (find_free_time_slot "07:30" ["07:30", "08:00", "08:30", "09:00", "09:30"]).1 =
      "07:30" ∧
    spec_find_free_time_slot "07:30" ["07:30", "08:00", "08:30", "09:00", "09:30"] =
      "10:00" ∧
    "10:00" ≠ "07:30" := ⟨rfl, rfl, by decide⟩

/-- C6 (amended): collision resolution probes five candidate times at
30-minute increments starting at the base time itself (the base plus up
to four additional candidates), returns the first free one and records
it; only when all five are taken is the base time reused (and recorded),
so a task always receives a time. -/
theorem claim_C6_find_free_time_slot (base : String) (used : List String) :
    (∃ o : Nat, o < 5 ∧
        minutes_to_time (timeStrToMin base + (o : Int) * 30) ∉ used ∧
        (∀ j : Nat, j < o → minutes_to_time (timeStrToMin base + (j : Int) * 30) ∈ used) ∧
        (find_free_time_slot base used).1 =
          minutes_to_time (timeStrToMin base + (o : Int) * 30) ∧
        (find_free_time_slot base used).2 =
          setAdd used (minutes_to_time (timeStrToMin base + (o : Int) * 30))) ∨
    ((∀ o : Nat, o < 5 → minutes_to_time (timeStrToMin base + (o : Int) * 30) ∈ used) ∧
        (find_free_time_slot base used).1 = base ∧
        (find_free_time_slot base used).2 = setAdd used base) := by
  unfold find_free_time_slot
  dsimp only
  cases hf : findFirstOffset
      (fun o => !(decide (minutes_to_time (timeStrToMin base + (o : Int) * 30) ∈ used)))
      0 5 with
  | none =>
    have hall := (findFirstOffset_none_iff _ 5 0).mp hf
    refine Or.inr ⟨fun o ho => ?_, rfl, rfl⟩
    have := hall o (by omega) (by omega)
    simpa using this
  | some k =>
    obtain ⟨h1, h2, h3, h4⟩ := findFirstOffset_some _ 5 0 k hf
    refine Or.inl ⟨k, by omega, by simpa using h3, fun j hj => ?_, rfl, rfl⟩
    have := h4 j (by omega) hj
    simpa using this

/-- C6 witness. -/
theorem claim_C6_find_free_time_slot_witness :
    (∃ o : Nat, o < 5 ∧
        minutes_to_time (timeStrToMin "07:30" + (o : Int) * 30) ∉ ["07:30"] ∧
        (∀ j : Nat, j < o →
          minutes_to_time (timeStrToMin "07:30" + (j : Int) * 30) ∈ ["07:30"]) ∧
        (find_free_time_slot "07:30" ["07:30"]).1 =
          minutes_to_time (timeStrToMin "07:30" + (o : Int) * 30) ∧
        (find_free_time_slot "07:30" ["07:30"]).2 =
          setAdd ["07:30"] (minutes_to_time (timeStrToMin "07:30" + (o : Int) * 30))) ∨
    ((∀ o : Nat, o < 5 →
        minutes_to_time (timeStrToMin "07:30" + (o : Int) * 30) ∈ ["07:30"]) ∧
        (find_free_time_slot "07:30" ["07:30"]).1 = "07:30" ∧
        (find_free_time_slot "07:30" ["07:30"]).2 = setAdd ["07:30"] "07:30") :=
  claim_C6_find_free_time_slot "07:30" ["07:30"]

/-- C7: `sanitize_availability_profile(None)` and
`sanitize_availability_profile({})` both yield the full default profile,
and sanitization is idempotent: a second pass over the re-serialized
result of any successful first pass (Kleene equality on the partial
function) changes nothing. -/
theorem claim_C7_sanitize_idempotent :
    sanitize_availability_profile PyVal.vnone = some DEFAULT_AVAILABILITY_PROFILE ∧
    sanitize_availability_profile (PyVal.vdict []) = some DEFAULT_AVAILABILITY_PROFILE ∧
    ∀ x, sanitizeTwice x = sanitize_availability_profile x := by
  refine ⟨by decide, by decide, ?_⟩
  intro x
  unfold sanitizeTwice
  cases h : sanitize_availability_profile x with
  | none => rfl
  | some p => simpa using sanitize_roundtrip (sanitize_canonical h)

/-- C8: the claim (and the spec's "total function, never fails") says
every raw input yields a fully-defaulted profile.  In fact a truthy
non-iterable `work_days` value — here the integer 5 — makes
`_normalize_work_days` iterate a non-iterable, raising `TypeError`
(modelled as `none`). -/
theorem claim_C8_work_days_int_raises :
    sanitize_availability_profile (PyVal.vdict [("work_days", PyVal.vint 5)]) = none := by
  decide

/-- C9: the weekly rolling-wave planner's micro-resolution always carries
3–5 suggested tasks: both failure modes return the fixed 3-task fallback,
and a successful call is clamped into range by `_ensure_task_bounds`. -/
theorem claim_C9_weekly_task_bounds (o : WeeklyLLMOutcome) :
    3 ≤ (request_plan_from_llm o).suggested_week_1_tasks.length ∧
    (request_plan_from_llm o).suggested_week_1_tasks.length ≤ 5 ∧
    request_plan_from_llm WeeklyLLMOutcome.noKey = fallback_micro_resolution ∧
    request_plan_from_llm WeeklyLLMOutcome.failure = fallback_micro_resolution ∧
    (∀ m, request_plan_from_llm (WeeklyLLMOutcome.ok m) = ensure_task_bounds m) := by
  have hbounds : ∀ m : MicroResolutionPayload,
      3 ≤ (ensure_task_bounds m).suggested_week_1_tasks.length ∧
      (ensure_task_bounds m).suggested_week_1_tasks.length ≤ 5 := by
    intro m
    unfold ensure_task_bounds
    have hfb : fallback_micro_resolution.suggested_week_1_tasks.length = 3 := rfl
    dsimp only
    set t := m.suggested_week_1_tasks with ht
    have hlen : (t ++ fallback_micro_resolution.suggested_week_1_tasks.take
        (3 - t.length)).length = t.length + min (3 - t.length) 3 := by
      simp [List.length_append, List.length_take, hfb]
    split_ifs with h
    · simp only [List.length_take]
      omega
    · omega
  cases o with
  | noKey => exact ⟨by decide, by decide, rfl, rfl, fun m => rfl⟩
  | failure => exact ⟨by decide, by decide, rfl, rfl, fun m => rfl⟩
  | ok m => exact ⟨(hbounds m).1, (hbounds m).2, rfl, rfl, fun m' => rfl⟩

/-! ### Claim C10 — the `[4, 12]` duration clamp -/

lemma fallback_plan_duration_weeks (today : Int) (ui : String) (w : Int)
    (rt : Option String) (ctx : Option UserContext) (b r : String) :
    (fallback_plan today ui w rt ctx b r).duration_weeks =
      max 4 (min 12 (if w ≠ 0 then w else 8)) := rfl

lemma fallback_plan_milestones (today : Int) (ui : String) (w : Int)
    (rt : Option String) (ctx : Option UserContext) (b r : String) :
    (fallback_plan today ui w rt ctx b r).milestones =
      fallback_milestones (max 4 (min 12 (if w ≠ 0 then w else 8))) := rfl

lemma fallback_milestones_length (w : Int) :
    (fallback_milestones w).length = w.toNat := by
  unfold fallback_milestones
  rw [List.length_map, List.length_range]

lemma finalize_plan_duration_weeks (p : ResolutionPlan) (e : EvaluationResult)
    (b r : String) (x y z : Bool) :
    (finalize_plan p e b r x y z).duration_weeks = p.duration_weeks := rfl

lemma finalize_plan_milestones (p : ResolutionPlan) (e : EvaluationResult)
    (b r : String) (x y z : Bool) :
    (finalize_plan p e b r x y z).milestones = p.milestones := rfl

lemma callFinalizePlan_all_some (p : ResolutionPlan) (e : EvaluationResult)
    (b r : String) (x y z : Bool) :
    callFinalizePlan p e b r
      { repair_used := some x, regenerate_used := some y, fallback_used := some z } =
      Except.ok (finalize_plan p e b r x y z) := rfl

lemma repair_stage_passed_false (today : Int) (rt : Option String)
    (ctx : Option UserContext) (orep : Option ResolutionPlan)
    (evaluator : ResolutionPlan → EvaluationResult) (plan : ResolutionPlan)
    (evaluation : EvaluationResult)
    (hfail : ∀ q, (evaluator q).passed = false) (h : evaluation.passed = false) :
    (repair_stage today rt ctx orep evaluator plan evaluation).2.1.passed = false := by
  unfold repair_stage
  split_ifs with hc
  · cases orep with
    | some p' => exact hfail _
    | none => exact h
  · exact h

lemma regen_stage_passed_false (today : Int) (rt : Option String)
    (ctx : Option UserContext) (oreg : Option ResolutionPlan)
    (evaluator : ResolutionPlan → EvaluationResult) (plan : ResolutionPlan)
    (evaluation : EvaluationResult)
    (hfail : ∀ q, (evaluator q).passed = false) (h : evaluation.passed = false) :
    (regen_stage today rt ctx oreg evaluator plan evaluation).2.1.passed = false := by
  unfold regen_stage
  rw [if_pos (by simp [h])]
  cases oreg with
  | some p' => exact hfail _
  | none => exact h

lemma fallback_stage_of_fail {today : Int} {ui : String} {weeks : Int}
    {rt : Option String} {ctx : Option UserContext} {bl rl : String}
    {evaluator : ResolutionPlan → EvaluationResult} {plan : ResolutionPlan}
    {evaluation : EvaluationResult} (h : evaluation.passed = false) :
    fallback_stage today ui weeks rt ctx bl rl evaluator plan evaluation =
      (fallback_plan today ui weeks rt ctx bl rl,
       evaluator (fallback_plan today ui weeks rt ctx bl rl), true) := by
  unfold fallback_stage
  rw [if_pos (by simp [h])]

lemma decompose_with_key_allfail (today : Int) (ui : String) (dw : Int)
    (rt : Option String) (ctx : Option UserContext) (eb br : Option String)
    (p0 : ResolutionPlan) (orep oreg : Option ResolutionPlan)
    (evaluator : ResolutionPlan → EvaluationResult)
    (hfail : ∀ q, (evaluator q).passed = false) :
    ∃ ru gu : Bool,
      decompose_resolution_with_llm today ui dw rt ctx eb br true
        { gen := Except.ok p0, repair := orep, regen := oreg } evaluator =
      Except.ok (finalize_plan
        (fallback_plan today ui (sanitized_weeks dw) rt ctx
          (pyOrStr (eb.getD "") "medium") (pyOrStr (br.getD "") "Defaulted effort band."))
        (evaluator (fallback_plan today ui (sanitized_weeks dw) rt ctx
          (pyOrStr (eb.getD "") "medium") (pyOrStr (br.getD "") "Defaulted effort band.")))
        (pyOrStr (eb.getD "") "medium") (pyOrStr (br.getD "") "Defaulted effort band.")
        ru gu true) := by
  unfold decompose_resolution_with_llm
  rw [if_neg (not_not_intro rfl)]
  dsimp only
  rcases hs1 : repair_stage today rt ctx orep evaluator
      (post_process_plan today p0 rt ctx)
      (evaluator (post_process_plan today p0 rt ctx)) with ⟨p1, e1, ru⟩
  have he1 : e1.passed = false := by
    have h := repair_stage_passed_false today rt ctx orep evaluator
      (post_process_plan today p0 rt ctx)
      (evaluator (post_process_plan today p0 rt ctx)) hfail
      (hfail (post_process_plan today p0 rt ctx))
    rw [hs1] at h
    exact h
  dsimp only
  rcases hs2 : regen_stage today rt ctx oreg evaluator p1 e1 with ⟨p2, e2, gu⟩
  have he2 : e2.passed = false := by
    have h := regen_stage_passed_false today rt ctx oreg evaluator p1 e1 hfail he1
    rw [hs2] at h
    exact h
  dsimp only
  rw [fallback_stage_of_fail he2]
  dsimp only
  rw [callFinalizePlan_all_some]
  exact ⟨ru, gu, rfl⟩

/-- C10: `duration_weeks` is silently clamped into `[4, 12]` before
prompting and fallback construction: a request of at most 3 weeks is
sanitized to 4, the fallback plan built from the sanitized value carries
`duration_weeks = 4` with exactly 4 milestones, the plan schema itself
permits `duration_weeks = 1`, and when the key is present and no
generated plan ever passes evaluation the caller receives a plan with
`duration_weeks = 4` and 4 milestones. -/
theorem claim_C10_duration_clamped (today : Int) (user_input : String) (dw : Int)
    (rt : Option String) (ctx : Option UserContext) (eb br : Option String)
    (band rationale : String) (p0 : ResolutionPlan) (orep oreg : Option ResolutionPlan)
    (evaluator : ResolutionPlan → EvaluationResult)
    (hdw : dw ≤ 3) (hfail : ∀ q, (evaluator q).passed = false) :
    sanitized_weeks dw = 4 ∧
    (fallback_plan today user_input (sanitized_weeks dw) rt ctx band
      rationale).duration_weeks = 4 ∧
    (fallback_plan today user_input (sanitized_weeks dw) rt ctx band
      rationale).milestones.length = 4 ∧
    duration_weeks_schema_ok 1 = true ∧
    ∃ r, decompose_resolution_with_llm today user_input dw rt ctx eb br true
        { gen := Except.ok p0, repair := orep, regen := oreg } evaluator = Except.ok r ∧
      r.duration_weeks = 4 ∧ r.milestones.length = 4 := by
  have h4 : sanitized_weeks dw = 4 := by
    unfold sanitized_weeks
    rw [min_eq_right (by omega : dw ≤ 12), max_eq_left (by omega : dw ≤ 4)]
  have hfbd : ∀ b r : String,
      (fallback_plan today user_input (sanitized_weeks dw) rt ctx b r).duration_weeks = 4 := by
    intro b r
    rw [h4, fallback_plan_duration_weeks]
    decide
  have hfbm : ∀ b r : String,
      (fallback_plan today user_input (sanitized_weeks dw) rt ctx b r).milestones.length
        = 4 := by
    intro b r
    rw [h4, fallback_plan_milestones, fallback_milestones_length]
    decide
  refine ⟨h4, hfbd band rationale, hfbm band rationale, by decide, ?_⟩
  obtain ⟨ru, gu, hr⟩ := decompose_with_key_allfail today user_input dw rt ctx eb br
    p0 orep oreg evaluator hfail
  refine ⟨_, hr, ?_, ?_⟩
  · rw [finalize_plan_duration_weeks]
    exact hfbd _ _
  · rw [finalize_plan_milestones]
    exact hfbm _ _


/-- C10 witness. -/
theorem claim_C10_duration_clamped_witness :
    (2 : Int) ≤ 3 ∧
    (∀ q, (rejectAllEvaluator q).passed = false) ∧
    (sanitized_weeks 2 = 4 ∧
      (fallback_plan 0 "run" (sanitized_weeks 2) none none "medium" "r").duration_weeks
        = 4 ∧
      (fallback_plan 0 "run" (sanitized_weeks 2) none none "medium"
        "r").milestones.length = 4 ∧
      duration_weeks_schema_ok 1 = true ∧
      ∃ r, decompose_resolution_with_llm 0 "run" 2 none none none none true
          { gen := Except.ok sampleGeneratedPlan, repair := none, regen := none }
          rejectAllEvaluator = Except.ok r ∧
        r.duration_weeks = 4 ∧ r.milestones.length = 4) :=
  ⟨by decide, fun q => rfl,
    claim_C10_duration_clamped 0 "run" 2 none none none none "medium" "r"
      sampleGeneratedPlan none none rejectAllEvaluator (by decide) (fun q => rfl)⟩

end SarthiAI
